import Mathlib

/-!
Verification development for the `av` video-ingest and retrieval tool.

This file gives a shallow embedding, in Lean 4, of the core logic of the
repository:

* `src/av/db/schema.py` / `src/av/db/repository.py` — the SQLite store
  (videos, artifacts, embeddings, the FTS5 shadow index) modelled as pure
  state (`RepoState`) with explicit state-passing operations;
* `src/av/pipeline/cascade.py` — the three-layer captioning cascade;
* `src/av/search/semantic.py` — lexical search plus the cosine rerank phase;
* `src/av/search/rag.py` — answer composition (`ask`);
* `src/av/pipeline/ingest.py` — the ingest orchestrator.

Modelling conventions:

* Python floats (durations, scores, vector components) are modelled as `ℚ`;
  the cosine-similarity kernel, which uses `math.sqrt`, is modelled over `ℝ`.
* Python strings are Lean `String`s.  `str.strip`/`str.upper` are modelled by
  `pyStrip`/`pyUpper` with ASCII semantics (the sentinel tokens compared in
  the source are ASCII).
* External capabilities (transcription, captioning, embedding, chat) are
  passed in as explicit outcome values / functions: a call that raises is an
  `Except.error`, a call that returns is `Except.ok`.
* `uuid.uuid4()` draws are modelled as explicit id parameters.
* Wall-clock readings (`time.time()`), logging to stderr, and temp-file
  cleanup are elided: they do not affect any persisted state or returned
  value other than the elapsed-time field, which is not modelled.
-/

namespace AV

/-! ## ASCII string helpers (Python `str.strip` / `str.upper`) -/

/-- ASCII uppercase of one character (`str.upper` restricted to ASCII). -/
def asciiUpperChar (c : Char) : Char :=
  if 'a' ≤ c ∧ c ≤ 'z' then Char.ofNat (c.toNat - 32) else c

/-- Model of Python `str.upper` (ASCII range; the strings compared in the
source are ASCII). -/
def pyUpper (s : String) : String := ⟨s.data.map asciiUpperChar⟩

/-- Python whitespace characters stripped by `str.strip()` (ASCII range). -/
def isPySpace (c : Char) : Bool :=
  c = ' ' ∨ c = '\t' ∨ c = '\n' ∨ c = '\x0d' ∨ c = '\x0b' ∨ c = '\x0c'

/-- Model of Python `str.strip()`: drop whitespace from both ends. -/
def pyStrip (s : String) : String :=
  ⟨((s.data.dropWhile isPySpace).reverse.dropWhile isPySpace).reverse⟩

/-- Python truthiness of a string: non-empty. -/
def pyTruthy (s : String) : Bool := s ≠ ""

/-! ## Data model (`src/av/db/models.py`, `src/av/db/schema.py`)

The SQLite schema (migration 1 in `schema.py`): table `videos` with a unique
`file_hash`, table `artifacts` with `video_id REFERENCES videos(id) ON DELETE
CASCADE`, table `embeddings` with `artifact_id REFERENCES artifacts(id) ON
DELETE CASCADE`, and the `artifacts_fts` FTS5 shadow index maintained by
triggers.  `connection.py` turns `PRAGMA foreign_keys=ON`, so the cascades
are active.  The embedding BLOB (packed 32-bit floats plus a `dim` column)
is modelled as the list of its components together with `dim`. -/

structure VideoRow where
  id : String
  file_path : String
  file_hash : String
  file_size_bytes : ℤ
  filename : String
  duration_sec : ℚ
  width : Option ℤ := none
  height : Option ℤ := none
  fps : Option ℚ := none
  codec : Option String := none
  bitrate : Option ℤ := none
  status : String := "pending"
  error_message : Option String := none
  ingest_config_json : Option String := none
  metadata_json : Option String := none
deriving Repr, DecidableEq

structure ArtifactRow where
  id : String
  video_id : String
  type : String
  start_sec : ℚ
  end_sec : Option ℚ := none
  text : String
  meta_json : Option String := none
deriving Repr, DecidableEq

structure EmbeddingRow where
  id : String
  artifact_id : String
  model : String
  dim : ℕ
  vector : List ℚ
deriving Repr, DecidableEq

/-- The persisted store: one embedded database. -/
structure RepoState where
  videos : List VideoRow
  artifacts : List ArtifactRow
  embeddings : List EmbeddingRow
deriving Repr, DecidableEq

/-- The empty database (fresh file after migration). -/
def RepoState.empty : RepoState := ⟨[], [], []⟩

/-! ## Repository operations (`src/av/db/repository.py`) -/

/-- Model of `Repository.get_video_by_hash`: `SELECT * FROM videos WHERE file_hash = ?`
(first row). -/
def get_video_by_hash (st : RepoState) (h : String) : Option VideoRow :=
  st.videos.find? (fun v => v.file_hash = h)

/-- Model of `Repository.insert_video`.  The `INSERT` violates a constraint when the
primary key `id` or the unique `file_hash` already exists; the method wraps
`sqlite3.IntegrityError` into a raised `DatabaseError`. -/
def insert_video (st : RepoState) (v : VideoRow) : Except String RepoState :=
  if st.videos.any (fun w => w.id = v.id ∨ w.file_hash = v.file_hash) then
    .error "DatabaseError: Video already exists"
  else
    .ok { st with videos := st.videos ++ [v] }

/-- Model of `Repository.update_video_status`: `UPDATE videos SET status = ?,
error_message = ? WHERE id = ?`.  Note the SQL always writes both columns:
omitting `error_message` at a call site sets it to NULL. -/
def update_video_status (st : RepoState) (vid : String) (status : String)
    (err : Option String := none) : RepoState :=
  { st with videos := st.videos.map (fun v =>
      if v.id = vid then { v with status := status, error_message := err } else v) }

/-- Model of `Repository.delete_video`: `DELETE FROM videos WHERE id = ?`, with
`ON DELETE CASCADE` removing the video's artifacts and, transitively, their
embeddings (`PRAGMA foreign_keys=ON` in `connection.py`). -/
def delete_video (st : RepoState) (vid : String) : RepoState :=
  let goneArtifactIds := (st.artifacts.filter (fun a => a.video_id = vid)).map (·.id)
  { videos := st.videos.filter (fun v => ¬ v.id = vid),
    artifacts := st.artifacts.filter (fun a => ¬ a.video_id = vid),
    embeddings := st.embeddings.filter (fun e => ¬ e.artifact_id ∈ goneArtifactIds) }

/-- Model of `Repository.insert_artifacts_batch`: `executemany INSERT INTO artifacts`. -/
def insert_artifacts_batch (st : RepoState) (arts : List ArtifactRow) : RepoState :=
  { st with artifacts := st.artifacts ++ arts }

/-- Model of `Repository.insert_embeddings_batch`: `executemany INSERT INTO embeddings`
(the per-row `uuid.uuid4()` ids are supplied by the caller in this model). -/
def insert_embeddings_batch (st : RepoState) (rows : List EmbeddingRow) : RepoState :=
  { st with embeddings := st.embeddings ++ rows }

/-- Persisted status of a video, if the row exists. -/
def videoStatus (st : RepoState) (vid : String) : Option String :=
  (st.videos.find? (fun v => v.id = vid)).map (·.status)

end AV

namespace AV

/-! ## Configuration (`src/av/core/config.py`) — the fields the core reads. -/

structure AVConfig where
  provider : String := ""
  transcribe_model : String := "whisper-1"
  vision_model : String := "gpt-4.1"
  embed_model : String := "text-embedding-3-small"
  chat_model : String := "gpt-4.1"
deriving Repr, DecidableEq

/-! ## JSON rendering for `meta_json` / `ingest_config_json`

`json.dumps` over flat string/number dicts, rendered with the same key
order as the source literals.  (Escaping of special characters inside
values is not modelled; no claim depends on it.) -/

def jsonStrLit (s : String) : String := "\"" ++ s ++ "\""

def jsonObj (fields : List (String × String)) : String :=
  "\x7b" ++ String.intercalate ", " (fields.map (fun p => jsonStrLit p.1 ++ ": " ++ p.2)) ++ "\x7d"

/-! ## Captioning cascade (`src/av/pipeline/cascade.py`) -/

/-- Outcome of the layer-0 body for one chunk.  The source wraps frame
extraction and the VLM call in a per-chunk `try`: an exception is caught and
logged (`fail`); extraction can also return no frames (`noFrames`), and the
`continue` skips the chunk; otherwise `caption_chunk` returned `reply`. -/
inductive ChunkStep where
  | fail
  | noFrames
  | reply (text : String)
deriving Repr, DecidableEq

/-- Model of `num_chunks = max(1, math.ceil(duration_sec / chunk_duration_sec))`. -/
def num_chunks (duration_sec : ℚ) (chunk_duration_sec : ℕ) : ℕ :=
  (max 1 ⌈duration_sec / (chunk_duration_sec : ℚ)⌉).toNat

/-- Model of `start = chunk_idx * chunk_duration_sec`. -/
def chunkStart (chunk_duration_sec : ℕ) (k : ℕ) : ℚ := (k : ℚ) * chunk_duration_sec

/-- Model of `end = min(start + chunk_duration_sec, duration_sec)`. -/
def chunkEnd (duration_sec : ℚ) (chunk_duration_sec : ℕ) (k : ℕ) : ℚ :=
  min (chunkStart chunk_duration_sec k + chunk_duration_sec) duration_sec

/-- The `[start, end)` pairs of all layer-0 chunks, in order. -/
def cascadeChunks (duration_sec : ℚ) (chunk_duration_sec : ℕ) : List (ℚ × ℚ) :=
  (List.range (num_chunks duration_sec chunk_duration_sec)).map
    (fun k => (chunkStart chunk_duration_sec k, chunkEnd duration_sec chunk_duration_sec k))

/-- The layer-0 caption artifact for chunk `k` with VLM reply `t`
(`ArtifactRecord(id=uuid4, video_id, type="caption", start, end, text,
meta_json=json.dumps(meta_base))`). -/
def mkChunkArtifact (ids : ℕ → String) (video_id : String) (cfg : AVConfig)
    (topic : String) (duration_sec : ℚ) (chunk_duration_sec : ℕ)
    (k : ℕ) (t : String) : ArtifactRow :=
  { id := ids k, video_id := video_id, type := "caption",
    start_sec := chunkStart chunk_duration_sec k,
    end_sec := some (chunkEnd duration_sec chunk_duration_sec k),
    text := t,
    meta_json := some (jsonObj
      [("model", jsonStrLit cfg.vision_model), ("topic", jsonStrLit topic), ("layer", "0")]) }

/-- One iteration of the layer-0 loop: `none` when the chunk is skipped
(`continue`), `some` when an artifact is appended.  The skip condition is
`if not text or text.strip().upper() == "STATIC": continue`. -/
def chunkArtifact (ids : ℕ → String) (video_id : String) (cfg : AVConfig)
    (topic : String) (duration_sec : ℚ) (chunk_duration_sec : ℕ)
    (step : ℕ → ChunkStep) (k : ℕ) : Option ArtifactRow :=
  match step k with
  | .fail => none
  | .noFrames => none
  | .reply t =>
      if t = "" ∨ pyUpper (pyStrip t) = "STATIC" then none
      else some (mkChunkArtifact ids video_id cfg topic duration_sec chunk_duration_sec k t)

/-- Layer 0 of the cascade: the artifacts appended by the chunk loop. -/
def cascade_layer0 (ids : ℕ → String) (video_id : String) (cfg : AVConfig)
    (topic : String) (duration_sec : ℚ) (chunk_duration_sec : ℕ)
    (step : ℕ → ChunkStep) : List ArtifactRow :=
  (List.range (num_chunks duration_sec chunk_duration_sec)).filterMap
    (chunkArtifact ids video_id cfg topic duration_sec chunk_duration_sec step)

def LAYER1_SYSTEM_PROMPT : String :=
  "You are a video analysis system producing a structured event log from chunk-level observations.\n\nFormat each event as:\nSTART_SEC:END_SEC:EVENT\n\nRules:\n- Merge consecutive chunks describing the same ongoing event into one entry.\n- Drop trivial or purely static observations (e.g., \"nothing happens\", \"camera is still\").\n- Use concrete language: who/what did what, when.\n- Preserve timestamps accurately.\n- If the input is empty or all chunks were STATIC, respond with: NO_EVENTS"

def LAYER2_SYSTEM_PROMPT : String :=
  "You are producing the final consolidated video analysis report from a structured event log.\n\nFormat:\n## Events\nList each event with MM:SS timestamps and a clear description.\n\n## Summary\n2-3 sentence overview of the video content.\n\n## Categories\nTag each event with relevant categories (e.g., \"person_entry\", \"vehicle_movement\", \"equipment_use\").\n\nIf the input indicates NO_EVENTS, produce a report stating no significant events were detected."

/-- The layer-1 user content: the layer-0 artifacts in time order as
bracketed lines `f"[{start:.0f}s–{end:.0f}s] {text}"` joined by newlines.
(Python `"%.0f"` float formatting is modelled as rounding to the nearest
integer; its round-half-to-even tie behaviour is not load-bearing here.) -/
def layer1UserContent (layer0 : List ArtifactRow) : String :=
  String.intercalate "\n" (layer0.map (fun a =>
    "[" ++ toString (round a.start_sec) ++ "s–" ++
    toString (round ((a.end_sec).getD a.start_sec)) ++ "s] " ++ a.text))

/-- The layer-1 summary artifact (`type="summary"`, spanning `[0, duration]`). -/
def mkLayer1Artifact (id1 : String) (video_id : String) (cfg : AVConfig)
    (topic : String) (duration_sec : ℚ) (source_chunks : ℕ) (s : String) : ArtifactRow :=
  { id := id1, video_id := video_id, type := "summary",
    start_sec := 0, end_sec := some duration_sec, text := s,
    meta_json := some (jsonObj
      [("model", jsonStrLit cfg.chat_model), ("topic", jsonStrLit topic),
       ("layer", "1"), ("source_chunks", toString source_chunks)]) }

/-- The layer-2 report artifact (`type="report"`, spanning `[0, duration]`). -/
def mkLayer2Artifact (id2 : String) (video_id : String) (cfg : AVConfig)
    (topic : String) (duration_sec : ℚ) (s : String) : ArtifactRow :=
  { id := id2, video_id := video_id, type := "report",
    start_sec := 0, end_sec := some duration_sec, text := s,
    meta_json := some (jsonObj
      [("model", jsonStrLit cfg.chat_model), ("topic", jsonStrLit topic), ("layer", "2")]) }

/-- Model of `run_cascade`.  `step` gives the per-chunk layer-0 outcome; `llm s u` is
the outcome of `OpenAILLM(config).summarize(s, u)` (constructing the client
and calling it; `.error` = the exception caught by the enclosing handler).
Returns `(layer0, layer1, layer2)`. -/
def run_cascade (ids : ℕ → String) (id1 id2 : String) (video_id : String)
    (cfg : AVConfig) (topic : String) (duration_sec : ℚ) (chunk_duration_sec : ℕ)
    (step : ℕ → ChunkStep) (llm : String → String → Except String String) :
    List ArtifactRow × List ArtifactRow × List ArtifactRow :=
  let layer0 := cascade_layer0 ids video_id cfg topic duration_sec chunk_duration_sec step
  -- `if not layer0: return layer0, layer1, layer2` (layers 1 and 2 still empty)
  if layer0 = [] then (layer0, [], [])
  else
    -- Layer 1: `llm.summarize(LAYER1_SYSTEM_PROMPT, user_content)` inside `try`
    let layer1 :=
      match llm LAYER1_SYSTEM_PROMPT (layer1UserContent layer0) with
      | .error _ => []
      | .ok summary_text =>
          -- `if summary_text and summary_text.strip() != "NO_EVENTS"`
          if summary_text ≠ "" ∧ pyStrip summary_text ≠ "NO_EVENTS" then
            [mkLayer1Artifact id1 video_id cfg topic duration_sec layer0.length summary_text]
          else []
    -- Layer 2: `if layer1:` then `llm.summarize(LAYER2_SYSTEM_PROMPT, layer1[0].text)`
    let layer2 :=
      match layer1 with
      | [] => []
      | a1 :: _ =>
          match llm LAYER2_SYSTEM_PROMPT a1.text with
          | .error _ => []
          | .ok report_text =>
              -- `if report_text:`
              if report_text ≠ "" then
                [mkLayer2Artifact id2 video_id cfg topic duration_sec report_text]
              else []
    (layer0, layer1, layer2)

end AV

namespace AV

/-! ## Search (`src/av/db/repository.py` `search_fts`,
`src/av/search/semantic.py`) -/

structure SearchResult where
  rank : ℕ
  score : ℚ
  video_id : String
  filename : String
  timestamp_sec : ℚ
  timestamp_formatted : String
  source_type : String
  text : String
  artifact_id : Option String := none
deriving Repr, DecidableEq

/-- Python `round(x, places)` (round-half-to-even at exact ties is modelled
as round-half-up; no claim depends on a tie). -/
def roundTo (places : ℕ) (q : ℚ) : ℚ := (round (q * 10 ^ places) : ℚ) / 10 ^ places

/-- Two-digit zero-padded decimal, for `f"{h:02d}"`. -/
def pad2 (n : ℕ) : String := if n < 10 then "0" ++ toString n else toString n

/-- Model of `_fmt_duration` / `_fmt_timestamp`: seconds as `HH:MM:SS` (for the
nonnegative durations the store holds). -/
def fmt_duration (secs : ℚ) : String :=
  let n := (⌊secs⌋).toNat
  pad2 (n / 3600) ++ ":" ++ pad2 ((n % 3600) / 60) ++ ":" ++ pad2 (n % 60)

inductive SqlError where
  | noSuchColumn (name : String)
deriving Repr, DecidableEq

/-- Model of `Repository.search_fts`.

The FTS5 index's native relevance for the current `query` is abstracted as
`relevance : ArtifactRow → Option ℚ`: `none` when the artifact's text does
not match the query, otherwise the `rank` value (fts5 bm25; smaller = more
relevant, so `ORDER BY rank` lists best matches first).

With `video_id = some _` the source runs a query whose `FROM` clause holds
only `artifacts` and `videos` while selecting `rank as score`; the FTS table
appears only inside a subquery, so SQLite cannot resolve the column and the
statement raises `sqlite3.OperationalError: no such column: rank` (verified
against SQLite 3.40).  That branch therefore returns no rows and the
exception propagates to the caller.

With `video_id = none` the source joins `artifacts_fts` with `artifacts`
and `videos`, orders by `rank` and applies `LIMIT`; each returned row `i`
becomes a `SearchResult` with `rank = i + 1` and
`score = round(abs(score), 4) if score else 0.0`. -/
def search_fts (st : RepoState) (relevance : ArtifactRow → Option ℚ)
    (query : String) (limit : ℕ) (video_id : Option String) :
    Except SqlError (List SearchResult) :=
  match video_id with
  | some _ => .error (.noSuchColumn "rank")
  | none =>
      let matched := st.artifacts.filterMap (fun a =>
        (relevance a).bind (fun r =>
          (st.videos.find? (fun v => v.id = a.video_id)).map (fun v => (r, a, v.filename))))
      let ordered := (matched.insertionSort (fun x y => x.1 ≤ y.1)).take limit
      .ok (ordered.enum.map (fun p =>
        match p with
        | (i, r, a, fn) =>
          { rank := i + 1,
            score := if r ≠ 0 then roundTo 4 (abs r) else 0,
            video_id := a.video_id,
            filename := fn,
            timestamp_sec := a.start_sec,
            timestamp_formatted := fmt_duration a.start_sec,
            source_type := a.type,
            text := a.text,
            artifact_id := some a.id }))

/-- Model of `Repository.get_embeddings_for_artifacts`: the rows whose `artifact_id`
is among `ids`, as the insertion sequence of the Python dict (a later row
for the same artifact overwrites an earlier one, so lookups take the last
entry). -/
def get_embeddings_for_artifacts (st : RepoState) (ids : List String) :
    List (String × List ℚ) :=
  (st.embeddings.filter (fun e => e.artifact_id ∈ ids)).map (fun e => (e.artifact_id, e.vector))

/-- Lookup in the dict modelled by an insertion sequence: last write wins. -/
def dictLookup (d : List (String × List ℚ)) (k : String) : Option (List ℚ) :=
  d.reverse.lookup k

/-- The score the rerank loop pairs with a candidate:
`cos(query_vec, embeddings[id])` when `r.artifact_id` is truthy and in the
dict, `0.0` otherwise. -/
def rerankScore (simf : List ℚ → List ℚ → ℚ) (embDict : List (String × List ℚ))
    (query_vec : List ℚ) (r : SearchResult) : ℚ :=
  match r.artifact_id with
  | none => 0
  | some aid =>
      if aid = "" then 0
      else
        match dictLookup embDict aid with
        | some e => simf query_vec e
        | none => 0

/-- Phase 2 of `semantic.search` (its body from `if embeddings:` on).

`simf` abstracts `_cosine_similarity` on the query vector and a stored
vector; `embedQuery` is the outcome of `OpenAIEmbedder(config).embed([query])`
(`.error` = any exception, caught by the source's handler).  Python's
`list.sort(key=..., reverse=True)` is a stable descending sort, modelled by
`List.insertionSort` with `≥` on the score component.  Note the source only
truncates to `limit` on the paths it rebuilds or falls back; when `embed`
returns an empty list without raising, the candidate list passes through
untruncated. -/
def rerank (simf : List ℚ → List ℚ → ℚ) (limit : ℕ)
    (embDict : List (String × List ℚ)) (embedQuery : Except String (List (List ℚ)))
    (fts_results : List SearchResult) : List SearchResult :=
  if embDict = [] then fts_results.take limit
  else
    match embedQuery with
    | .error _ => fts_results.take limit
    | .ok [] => fts_results
    | .ok (query_vec :: _) =>
        let scored := fts_results.map (fun r => (rerankScore simf embDict query_vec r, r))
        let sorted := scored.insertionSort (fun x y => y.1 ≤ x.1)
        (sorted.take limit).enum.map (fun p =>
          match p with
          | (i, sim, r) => { r with rank := i + 1, score := roundTo 4 sim })

structure SearchResponse where
  query : String
  results : List SearchResult
  total_results : ℕ
deriving Repr, DecidableEq

/-- Model of `semantic.search` (`search_time_ms` elided).  Step 1 over-fetches
`limit * 3` candidates from `search_fts`; note the step is not wrapped in a
`try`, so a `search_fts` exception propagates.  Zero lexical hits
short-circuit to an empty response; otherwise the rerank phase runs. -/
def search (st : RepoState) (relevance : ArtifactRow → Option ℚ)
    (simf : List ℚ → List ℚ → ℚ) (embedQuery : Except String (List (List ℚ)))
    (query : String) (limit : ℕ) (video_id : Option String) :
    Except SqlError SearchResponse :=
  match search_fts st relevance query (limit * 3) video_id with
  | .error e => .error e
  | .ok fts_results =>
      if fts_results = [] then .ok { query := query, results := [], total_results := 0 }
      else
        let artifact_ids := fts_results.filterMap (fun r =>
          r.artifact_id.bind (fun i => if i = "" then none else some i))
        let embDict := get_embeddings_for_artifacts st artifact_ids
        let final := rerank simf limit embDict embedQuery fts_results
        .ok { query := query, results := final, total_results := final.length }

/-! ## Cosine similarity (`semantic._cosine_similarity`)

The floating-point kernel is modelled over `ℝ` (it uses `math.sqrt`). -/

/-- Model of `_cosine_similarity(a, b)`: dot product over the zipped prefix, norms via
`sqrt`, and `0.0` when either norm is zero — otherwise `dot / (na * nb)`. -/
noncomputable def cosine_similarity (a b : List ℝ) : ℝ :=
  let dot := (List.zipWith (· * ·) a b).sum
  let norm_a := Real.sqrt ((a.map (fun x => x * x)).sum)
  let norm_b := Real.sqrt ((b.map (fun x => x * x)).sum)
  if norm_a = 0 ∨ norm_b = 0 then 0 else dot / (norm_a * norm_b)

/-! ## Answer composition (`src/av/search/rag.py`) -/

structure Citation where
  video_id : String
  start_sec : ℚ
  end_sec : Option ℚ
  source_type : String
  text : String
  score : ℚ
deriving Repr, DecidableEq

structure AskResponse where
  answer : String
  citations : List Citation
  confidence : ℚ
deriving Repr, DecidableEq

/-- Model of `rag.ask`, downstream of its retrieval call (`search(question, repo,
config, limit=top_k, video_id=video_id)` produced `searchResp`).
`llmComplete q ctx` is `OpenAILLM(config).complete(q, ctx)`.  The second
component of the result records whether the chat capability was invoked:
on the zero-hit path the source returns before `OpenAILLM` is even
constructed. -/
def ask (llmComplete : String → String → String) (question : String)
    (searchResp : SearchResponse) : AskResponse × Bool :=
  let results := searchResp.results
  if results = [] then
    ({ answer := "No relevant content found in the indexed videos.",
       citations := [], confidence := 0 }, false)
  else
    let context := String.intercalate "\n\n" (results.map (fun r =>
      "[" ++ r.filename ++ " @ " ++ r.timestamp_formatted ++ " (" ++ r.source_type ++ ")] " ++ r.text))
    let answer := llmComplete question context
    let citations := results.map (fun r =>
      ({ video_id := r.video_id, start_sec := r.timestamp_sec, end_sec := none,
         source_type := r.source_type, text := r.text, score := r.score } : Citation))
    let top_score := ((results.head?).map (·.score)).getD 0
    let confidence := if top_score ≠ 0 then min (roundTo 2 top_score) 1 else 1 / 2
    ({ answer := answer, citations := citations, confidence := confidence }, true)

end AV

namespace AV

/-! ## Ingest orchestrator (`src/av/pipeline/ingest.py`)

`ingest_video(path, repo, config, **options)` is modelled as a state
transformer on `RepoState`.  The filesystem-facing pieces (path resolution
and existence checks, `file_hash`, `get_video_info`, audio/frame extraction,
the provider calls) enter as parameters: `fhash` is the computed
fingerprint, and `StageOutcomes` records, for each stage, what its external
calls would deliver (`.error` = the exception the stage's handler catches,
or — for the probe — the fatal exception that propagates).  `uuid.uuid4()`
draws are the `IdSource` fields.  Temp-file cleanup (the `finally` block)
touches no persisted state and is elided; so is `elapsed_sec`. -/

/-- Model of `ffmpeg.get_video_info` result (`VideoMetadata`). -/
structure VideoMeta where
  duration_sec : ℚ
  width : Option ℤ := none
  height : Option ℤ := none
  fps : Option ℚ := none
  codec : Option String := none
  bitrate : Option ℤ := none
  file_size_bytes : ℤ
deriving Repr, DecidableEq

/-- Model of `providers.base.TranscriptSegment`. -/
structure TranscriptSegment where
  start_sec : ℚ
  end_sec : ℚ
  text : String
deriving Repr, DecidableEq

/-- Model of `providers.base.FrameCaption`. -/
structure FrameCaption where
  timestamp_sec : ℚ
  text : String
  frame_path : Option String := none
deriving Repr, DecidableEq

/-- The JSON-serializable result dict of `ingest_video`.  The source returns
dicts of different shapes per path; absent keys are `none`/`[]` here (the
`warnings` key in particular is set only when the list is non-empty, so an
empty `warnings` list models an absent key). -/
structure IngestResult where
  status : String
  video_id : String
  filename : String
  reason : Option String := none
  duration_sec : Option ℚ := none
  artifacts_count : Option ℕ := none
  warnings : List String := []
  would_caption : Option Bool := none
  would_embed : Option Bool := none
  would_dense_vision : Option Bool := none
deriving Repr, DecidableEq

/-- Either the returned result dict, or a propagated fatal exception. -/
inductive IngestOutcome where
  | ok (r : IngestResult)
  | raised (msg : String)
deriving Repr, DecidableEq

/-- The keyword options of `ingest_video`. -/
structure IngestOptions where
  captions : Bool := false
  fps_sample : ℚ := 1 / 2
  max_frames : ℕ := 200
  no_embed : Bool := false
  force : Bool := false
  dry_run : Bool := false
  dense_vision : Bool := false
  topic : String := "general"
  frame_captions : Bool := false
deriving Repr, DecidableEq

/-- The fresh `uuid.uuid4()` draws of one ingest run: the video id, and the
artifact/embedding row ids by stage and position. -/
structure IdSource where
  video_id : String
  tIds : ℕ → String
  fIds : ℕ → String
  dIds : ℕ → String
  eIds : ℕ → String

/-- Outcomes of the external calls of one ingest run. -/
structure StageOutcomes where
  probe : Except String VideoMeta
  transcribe : Except String (List TranscriptSegment)
  cascade : Except String (List ArtifactRow × List ArtifactRow × List ArtifactRow)
  frame_caps : Except String (List FrameCaption)
  dense_caps : Except String (List FrameCaption)
  embed : ℕ → Except String (List (List ℚ))

/-- Model of `config.provider or 'current'` as rendered into the two "disabled"
warnings. -/
def providerLabel (cfg : AVConfig) : String :=
  if cfg.provider = "" then "current" else cfg.provider

def pyBool (b : Bool) : String := if b then "true" else "false"

/-- Model of `json.dumps(ingest_config)` (numeric rendering approximated). -/
def ingestConfigJson (opts : IngestOptions) (principles_path : Option String) : String :=
  jsonObj
    [("captions", pyBool opts.captions),
     ("fps_sample", toString opts.fps_sample),
     ("max_frames", toString opts.max_frames),
     ("no_embed", pyBool opts.no_embed),
     ("force", pyBool opts.force),
     ("dense_vision", pyBool opts.dense_vision),
     ("principles_path", match principles_path with
       | some p => jsonStrLit p
       | none => "null")]

/-- Mutable context of the stage sequence inside the `try` block. -/
structure StageCtx where
  st : RepoState
  warnings : List String
  artifacts_count : ℕ
  transcript_artifacts : List ArtifactRow
  caption_artifacts : List ArtifactRow
  cascade_artifacts : List ArtifactRow
  dense_artifacts : List ArtifactRow
deriving Repr

/-- Step 4: audio extraction + transcription (best-effort).  With a
transcribe model configured, a successful run turns each segment into a
`transcript` artifact and batch-inserts them when non-empty; an exception is
caught and recorded as a warning.  Without a transcribe model, an
informational warning is recorded and the stage is skipped. -/
def stage_transcribe (cfg : AVConfig) (ids : IdSource)
    (outc : Except String (List TranscriptSegment)) (ctx : StageCtx) : StageCtx :=
  if cfg.transcribe_model ≠ "" then
    match outc with
    | .ok segments =>
        let arts := segments.enum.map (fun p =>
          match p with
          | (i, seg) =>
            ({ id := ids.tIds i, video_id := ids.video_id, type := "transcript",
               start_sec := seg.start_sec, end_sec := some seg.end_sec, text := seg.text,
               meta_json := some (jsonObj [("model", jsonStrLit cfg.transcribe_model)]) }
              : ArtifactRow))
        if arts ≠ [] then
          { ctx with st := insert_artifacts_batch ctx.st arts,
                     artifacts_count := ctx.artifacts_count + arts.length,
                     transcript_artifacts := arts }
        else { ctx with transcript_artifacts := arts }
    | .error e =>
        { ctx with warnings := ctx.warnings ++ ["Transcription skipped: " ++ e] }
  else
    { ctx with warnings := ctx.warnings ++
        ["Transcription disabled (provider=" ++ providerLabel cfg ++ ")."] }

/-- Step 5: the cascade (when `captions` is set).  `outc` is the
`run_cascade` call's outcome; its three layers are concatenated,
batch-inserted when non-empty, and also tracked for embedding. -/
def stage_cascade (opts : IngestOptions)
    (outc : Except String (List ArtifactRow × List ArtifactRow × List ArtifactRow))
    (ctx : StageCtx) : StageCtx :=
  if opts.captions then
    match outc with
    | .ok (l0, l1, l2) =>
        let cascade_artifacts := l0 ++ l1 ++ l2
        if cascade_artifacts ≠ [] then
          { ctx with st := insert_artifacts_batch ctx.st cascade_artifacts,
                     artifacts_count := ctx.artifacts_count + cascade_artifacts.length,
                     cascade_artifacts := cascade_artifacts,
                     caption_artifacts := ctx.caption_artifacts ++ cascade_artifacts }
        else { ctx with cascade_artifacts := cascade_artifacts }
    | .error e =>
        { ctx with warnings := ctx.warnings ++ ["Cascade captioning skipped: " ++ e] }
  else ctx

/-- Legacy per-frame captioning (when `frame_captions` is set).  `outc`
collapses frame extraction plus `caption_frames`; `.ok []` covers the
"no frames" path where nothing is inserted.  The inserted batch is the
caption artifacts not produced by the cascade. -/
def stage_frame_captions (cfg : AVConfig) (opts : IngestOptions) (ids : IdSource)
    (outc : Except String (List FrameCaption)) (ctx : StageCtx) : StageCtx :=
  if opts.frame_captions then
    match outc with
    | .ok caps =>
        let newArts := caps.enum.map (fun p =>
          match p with
          | (i, cap) =>
            ({ id := ids.fIds i, video_id := ids.video_id, type := "caption",
               start_sec := cap.timestamp_sec, end_sec := none, text := cap.text,
               meta_json := some (jsonObj [("model", jsonStrLit cfg.vision_model)]) }
              : ArtifactRow))
        let caption_artifacts := ctx.caption_artifacts ++ newArts
        let fc_arts := caption_artifacts.filter (fun a => ¬ a ∈ ctx.cascade_artifacts)
        if fc_arts ≠ [] then
          { ctx with st := insert_artifacts_batch ctx.st fc_arts,
                     artifacts_count := ctx.artifacts_count + fc_arts.length,
                     caption_artifacts := caption_artifacts }
        else { ctx with caption_artifacts := caption_artifacts }
    | .error e =>
        { ctx with warnings := ctx.warnings ++ ["Frame captioning skipped: " ++ e] }
  else ctx

/-- Step 5b: dense visual captions (when `dense_vision` is set).  The
side-channel timeline export touches no persisted state and is elided. -/
def stage_dense (cfg : AVConfig) (opts : IngestOptions) (ids : IdSource)
    (principles_path : Option String)
    (outc : Except String (List FrameCaption)) (ctx : StageCtx) : StageCtx :=
  if opts.dense_vision then
    match outc with
    | .ok caps =>
        let dense_artifacts := caps.enum.map (fun p =>
          match p with
          | (i, cap) =>
            ({ id := ids.dIds i, video_id := ids.video_id, type := "dense_caption",
               start_sec := cap.timestamp_sec, end_sec := none, text := cap.text,
               meta_json := some (jsonObj
                 [("model", jsonStrLit cfg.vision_model),
                  ("principles_path", match principles_path with
                    | some p => jsonStrLit p
                    | none => "null"),
                  ("prompt_template", jsonStrLit "prompts/dense_caption.md")]) }
              : ArtifactRow))
        if dense_artifacts ≠ [] then
          { ctx with st := insert_artifacts_batch ctx.st dense_artifacts,
                     artifacts_count := ctx.artifacts_count + dense_artifacts.length,
                     dense_artifacts := dense_artifacts }
        else { ctx with dense_artifacts := dense_artifacts }
    | .error e =>
        { ctx with warnings := ctx.warnings ++ ["Dense vision skipped: " ++ e] }
  else ctx

/-- The batched embedding loop (`batch_size = 100`): batch `j` either embeds
and inserts its rows (ids drawn from `eIds` at a running offset) or raises,
in which case the loop stops with the stage's warning; earlier batches stay
inserted. -/
def embedGo (cfg : AVConfig) (eIds : ℕ → String)
    (embf : ℕ → Except String (List (List ℚ))) :
    List (List ArtifactRow) → ℕ → ℕ → RepoState → RepoState × Option String
  | [], _, _, st => (st, none)
  | b :: rest, j, counter, st =>
      match embf j with
      | .error e => (st, some ("Embeddings skipped: " ++ e))
      | .ok vectors =>
          let rows := (b.zip vectors).enum.map (fun p =>
            match p with
            | (i, a, vec) =>
              ({ id := eIds (counter + i), artifact_id := a.id,
                 model := cfg.embed_model, dim := vec.length, vector := vec }
                : EmbeddingRow))
          embedGo cfg eIds embf rest (j + 1) (counter + rows.length)
            (insert_embeddings_batch st rows)

/-- Model of `range(0, len(texts), 100)` slicing. -/
def chunk100 (l : List ArtifactRow) : List (List ArtifactRow) :=
  (List.range ((l.length + 99) / 100)).map (fun j => (l.drop (100 * j)).take 100)

/-! Step 6: embeddings (best-effort).  Without an embed model (and unless
`no_embed`), an informational warning; with one, the artifacts of this run
(`transcript + caption + dense`) are embedded in batches of 100. -/

/-- The `if not no_embed and not can_embed:` informational warning. -/
def stage_embed_warn (cfg : AVConfig) (opts : IngestOptions) (ctx : StageCtx) : StageCtx :=
  if ¬ opts.no_embed ∧ cfg.embed_model = "" then
    { ctx with warnings := ctx.warnings ++
        ["Embeddings disabled (provider=" ++ providerLabel cfg ++ ")."] }
  else ctx

/-- The `if not no_embed and can_embed:` embedding run over
`transcript + caption + dense` artifacts. -/
def stage_embed_run (cfg : AVConfig) (opts : IngestOptions) (ids : IdSource)
    (embf : ℕ → Except String (List (List ℚ))) (ctx : StageCtx) : StageCtx :=
  if ¬ opts.no_embed ∧ cfg.embed_model ≠ "" then
    let all_artifacts := ctx.transcript_artifacts ++ ctx.caption_artifacts ++ ctx.dense_artifacts
    if all_artifacts ≠ [] then
      match embedGo cfg ids.eIds embf (chunk100 all_artifacts) 0 0 ctx.st with
      | (st2, none) => { ctx with st := st2 }
      | (st2, some w) => { ctx with st := st2, warnings := ctx.warnings ++ [w] }
    else ctx
  else ctx

def stage_embed (cfg : AVConfig) (opts : IngestOptions) (ids : IdSource)
    (embf : ℕ → Except String (List (List ℚ))) (ctx : StageCtx) : StageCtx :=
  stage_embed_run cfg opts ids embf (stage_embed_warn cfg opts ctx)

/-- Steps 2–7 for a run that passed the idempotency gate: probe (fatal),
dry-run preview, row insert (fatal on constraint violation), the degraded
stages, and finalization (`update_video_status(video_id, "complete")`;
the returned status reflects the warnings).  Inside the `try` block every
stage failure is caught at its own boundary, so in this model no fatal
exception can follow the row insert and the `except`-path
(`update_video_status(video_id, "error", str(e))` + re-raise) is
unreachable. -/
def ingest_main (cfg : AVConfig) (opts : IngestOptions) (ids : IdSource)
    (fhash filename file_path : String) (principles_path : Option String)
    (so : StageOutcomes) (st : RepoState) : RepoState × IngestOutcome :=
  match so.probe with
  | .error e => (st, .raised e)
  | .ok meta =>
      if opts.dry_run then
        (st, .ok { status := "dry_run", video_id := ids.video_id, filename := filename,
                   duration_sec := some meta.duration_sec,
                   would_caption := some opts.captions,
                   would_embed := some (¬ opts.no_embed),
                   would_dense_vision := some opts.dense_vision })
      else
        let video : VideoRow :=
          { id := ids.video_id, file_path := file_path, file_hash := fhash,
            file_size_bytes := meta.file_size_bytes, filename := filename,
            duration_sec := meta.duration_sec, width := meta.width,
            height := meta.height, fps := meta.fps, codec := meta.codec,
            bitrate := meta.bitrate, status := "pending",
            ingest_config_json := some (ingestConfigJson opts principles_path) }
        match insert_video st video with
        | .error e => (st, .raised e)
        | .ok st1 =>
            let ctx0 : StageCtx :=
              { st := st1, warnings := [], artifacts_count := 0,
                transcript_artifacts := [], caption_artifacts := [],
                cascade_artifacts := [], dense_artifacts := [] }
            let ctx :=
              stage_embed cfg opts ids so.embed
                (stage_dense cfg opts ids principles_path so.dense_caps
                  (stage_frame_captions cfg opts ids so.frame_caps
                    (stage_cascade opts so.cascade
                      (stage_transcribe cfg ids so.transcribe ctx0))))
            let st2 := update_video_status ctx.st ids.video_id "complete"
            (st2, .ok { status := if ctx.warnings ≠ [] then "complete_with_warnings" else "complete",
                        video_id := ids.video_id, filename := filename,
                        duration_sec := some (roundTo 2 meta.duration_sec),
                        artifacts_count := some ctx.artifacts_count,
                        warnings := ctx.warnings })

/-- Model of `ingest_video`: step 1 (fingerprint idempotency gate: return `skipped`,
or `--force`-delete the prior row before re-ingesting) and then the main
sequence. -/
def ingest_video (cfg : AVConfig) (opts : IngestOptions) (ids : IdSource)
    (fhash filename file_path : String) (principles_path : Option String)
    (so : StageOutcomes) (st : RepoState) : RepoState × IngestOutcome :=
  match get_video_by_hash st fhash with
  | some existing =>
      if ¬ opts.force then
        (st, .ok { status := "skipped", video_id := existing.id,
                   filename := existing.filename, reason := some "already_ingested" })
      else
        ingest_main cfg opts ids fhash filename file_path principles_path so
          (delete_video st existing.id)
  | none =>
      ingest_main cfg opts ids fhash filename file_path principles_path so st

end AV


namespace AV

/-! ## Specification predicates and concrete fixtures used by the theorems -/

/-- The rebuild step of the rerank phase: `SearchResult(rank=i+1,
score=round(sim, 4), …copied fields…)` over the truncated ranking. -/
def renumber (ranking : List (ℚ × SearchResult)) : List SearchResult :=
  ranking.enum.map (fun p =>
    match p with
    | (i, sim, r) => { r with rank := i + 1, score := roundTo 4 sim })

/-- What the rerank phase produces on the successful-embedding path: some
descending-sorted, score-faithful permutation of the candidate set whose
`limit`-truncation, renumbered, is the output. -/
def RerankOk (simf : List ℚ → List ℚ → ℚ) (limit : ℕ)
    (embDict : List (String × List ℚ)) (qv : List ℚ) (rest : List (List ℚ))
    (fts_results : List SearchResult) : Prop :=
  ∃ ranking : List (ℚ × SearchResult),
    (ranking.map Prod.snd).Perm fts_results ∧
    ranking.Pairwise (fun x y => y.1 ≤ x.1) ∧
    (∀ p ∈ ranking, p.1 = rerankScore simf embDict qv p.2) ∧
    rerank simf limit embDict (.ok (qv :: rest)) fts_results =
      renumber (ranking.take limit)

/-! Invariant machinery for C3: after a `--force` delete, no later stage
re-introduces rows belonging to the deleted video. -/

/-- Rows that cannot belong to the deleted video: a different `video_id`,
and an artifact id distinct from every deleted artifact's id. -/
def FreshRows (oldVid : String) (oldIds : List String) (l : List ArtifactRow) : Prop :=
  ∀ a ∈ l, a.video_id ≠ oldVid ∧ ¬ a.id ∈ oldIds

/-- The store holds nothing of the deleted video. -/
def NoOld (oldVid : String) (oldIds : List String) (s : RepoState) : Prop :=
  (∀ a ∈ s.artifacts, a.video_id ≠ oldVid) ∧
  (∀ e ∈ s.embeddings, ¬ e.artifact_id ∈ oldIds)

/-- The stage context holds nothing of the deleted video, in the store or in
the tracked per-run artifact lists. -/
def CtxOk (oldVid : String) (oldIds : List String) (ctx : StageCtx) : Prop :=
  NoOld oldVid oldIds ctx.st ∧
  FreshRows oldVid oldIds ctx.transcript_artifacts ∧
  FreshRows oldVid oldIds ctx.caption_artifacts ∧
  FreshRows oldVid oldIds ctx.cascade_artifacts ∧
  FreshRows oldVid oldIds ctx.dense_artifacts

/-! Concrete fixtures: a provider configuration with no transcription and no
embedding model (like the Anthropic preset), a `no_embed` option set, a
single probe-only stage outcome, and the resulting store/result of one run
over the empty store. -/

def cfgNoTranscribe : AVConfig :=
  { provider := "openai", transcribe_model := "", vision_model := "gpt-4.1",
    embed_model := "", chat_model := "gpt-4.1" }

def optsNoEmbed : IngestOptions := { no_embed := true }

def idsRun1 : IdSource := ⟨"v1", fun _ => "t", fun _ => "f", fun _ => "d", fun _ => "e"⟩

def soProbe10 : StageOutcomes :=
  ⟨.ok { duration_sec := 10, file_size_bytes := 256 }, .error "x", .error "x",
   .error "x", .error "x", fun _ => .error "x"⟩

def stAfterC1 : RepoState :=
  ⟨[{ id := "v1", file_path := "/x/a.mp4", file_hash := "h1", file_size_bytes := 256,
      filename := "a.mp4", duration_sec := 10, status := "complete",
      error_message := none,
      ingest_config_json := some (ingestConfigJson optsNoEmbed none) }], [], []⟩

def rAfterC1 : IngestResult :=
  { status := "complete_with_warnings", video_id := "v1", filename := "a.mp4",
    duration_sec := some (roundTo 2 10), artifacts_count := some 0,
    warnings := ["Transcription disabled (provider=openai)."] }

/-! Fixtures for the `--force` re-ingest witness: a store holding one video
with one artifact and one embedding. -/

def vOld : VideoRow :=
  { id := "vold", file_path := "/x/a.mp4", file_hash := "h1", file_size_bytes := 256,
    filename := "a.mp4", duration_sec := 10, status := "complete" }

def aOld : ArtifactRow :=
  { id := "aold", video_id := "vold", type := "transcript", start_sec := 0,
    end_sec := some 1, text := "hello" }

def eOld : EmbeddingRow :=
  { id := "eold", artifact_id := "aold", model := "m", dim := 1, vector := [1] }

def stBeforeC3 : RepoState := ⟨[vOld], [aOld], [eOld]⟩

def optsForce : IngestOptions := { no_embed := true, force := true }

/-! Fixtures for the rerank witness: two lexical candidates, only the first
has a stored embedding. -/

def srA : SearchResult :=
  { rank := 1, score := 0, video_id := "v1", filename := "a.mp4", timestamp_sec := 5,
    timestamp_formatted := "00:00:05", source_type := "caption", text := "t1",
    artifact_id := some "a1" }

def srB : SearchResult :=
  { rank := 2, score := 0, video_id := "v1", filename := "a.mp4", timestamp_sec := 9,
    timestamp_formatted := "00:00:09", source_type := "caption", text := "t2",
    artifact_id := some "a2" }

/-- A concrete similarity kernel for the witness (plain dot product). -/
def simDot : List ℚ → List ℚ → ℚ := fun a b => (List.zipWith (· * ·) a b).sum

end AV

namespace AV

/-! ## Theorems -/

/-- Claim C9 — For every ask call whose retrieval phase returns zero hits, the
result is the fixed no-content answer string, an empty citation list, and
confidence exactly 0.0, and the chat capability is never invoked (the
invocation flag is `false`). -/
theorem ask_zero_hits (llmComplete : String → String → String) (question : String)
    (resp : SearchResponse) (h : resp.results = []) :
    ask llmComplete question resp =
      ({ answer := "No relevant content found in the indexed videos.",
         citations := [], confidence := 0 }, false) := by
  simp [ask, h]

/-- Witness for `ask_zero_hits` at a concrete empty retrieval result. -/
theorem ask_zero_hits_witness :
    ({ query := "q", results := [], total_results := 0 } : SearchResponse).results = [] ∧
    ask (fun q c => q ++ c) "q" { query := "q", results := [], total_results := 0 } =
      ({ answer := "No relevant content found in the indexed videos.",
         citations := [], confidence := 0 }, false) :=
  ⟨rfl, ask_zero_hits (fun q c => q ++ c) "q" _ rfl⟩

/-- Claim C10 — The cosine-similarity kernel is total on degenerate inputs: if
either vector has zero norm (in particular, the empty vector, whose sum of
squares is `0`), the guard returns `0.0` instead of dividing by zero. -/
theorem cosine_similarity_zero_norm (a b : List ℝ)
    (h : (a.map (fun x => x * x)).sum = 0 ∨ (b.map (fun x => x * x)).sum = 0) :
    cosine_similarity a b = 0 := by
  rcases h with h | h <;> simp [cosine_similarity, h]

/-- Witness for `cosine_similarity_zero_norm`: the empty vector against a
non-degenerate one. -/
theorem cosine_similarity_zero_norm_witness :
    ((([] : List ℝ).map (fun x => x * x)).sum = 0) ∧
    cosine_similarity [] [3, 4] = 0 :=
  ⟨by simp, cosine_similarity_zero_norm [] [3, 4] (Or.inl (by simp))⟩

/-- Claim C8 — For every ingest without `force` of a file whose fingerprint
already exists, the call returns status `skipped` with the existing video's
id (and its filename), and the store is left exactly unchanged — no rows
are written. -/
theorem ingest_skip_existing (cfg : AVConfig) (opts : IngestOptions) (ids : IdSource)
    (fhash filename fp : String) (pp : Option String) (so : StageOutcomes)
    (st : RepoState) (v : VideoRow)
    (hv : get_video_by_hash st fhash = some v) (hf : opts.force = false) :
    ingest_video cfg opts ids fhash filename fp pp so st =
      (st, .ok { status := "skipped", video_id := v.id, filename := v.filename,
                 reason := some "already_ingested" }) := by
  simp [ingest_video, hv, hf]

/-- Witness for `ingest_skip_existing` on a one-video store. -/
theorem ingest_skip_existing_witness :
    get_video_by_hash
        ⟨[{ id := "v1", file_path := "/x/a.mp4", file_hash := "h1",
            file_size_bytes := 1, filename := "a.mp4", duration_sec := 10 }], [], []⟩
        "h1" =
      some { id := "v1", file_path := "/x/a.mp4", file_hash := "h1",
             file_size_bytes := 1, filename := "a.mp4", duration_sec := 10 } ∧
    ({} : IngestOptions).force = false ∧
    ingest_video {} {} ⟨"v2", fun _ => "t", fun _ => "f", fun _ => "d", fun _ => "e"⟩
        "h1" "a.mp4" "/x/a.mp4" none
        ⟨.error "x", .error "x", .error "x", .error "x", .error "x", fun _ => .error "x"⟩
        ⟨[{ id := "v1", file_path := "/x/a.mp4", file_hash := "h1",
            file_size_bytes := 1, filename := "a.mp4", duration_sec := 10 }], [], []⟩ =
      (⟨[{ id := "v1", file_path := "/x/a.mp4", file_hash := "h1",
           file_size_bytes := 1, filename := "a.mp4", duration_sec := 10 }], [], []⟩,
       .ok { status := "skipped", video_id := "v1", filename := "a.mp4",
             reason := some "already_ingested" }) :=
  ⟨rfl, rfl,
    ingest_skip_existing {} {} ⟨"v2", fun _ => "t", fun _ => "f", fun _ => "d", fun _ => "e"⟩
      "h1" "a.mp4" "/x/a.mp4" none
      ⟨.error "x", .error "x", .error "x", .error "x", .error "x", fun _ => .error "x"⟩
      ⟨[{ id := "v1", file_path := "/x/a.mp4", file_hash := "h1",
          file_size_bytes := 1, filename := "a.mp4", duration_sec := 10 }], [], []⟩
      { id := "v1", file_path := "/x/a.mp4", file_hash := "h1",
        file_size_bytes := 1, filename := "a.mp4", duration_sec := 10 }
      rfl rfl⟩

/-- Claim C2 — With the optional video filter supplied, the lexical phase does
not return relevance-ranked candidates at all: the filtered SQL statement
references the FTS `rank` column outside any FTS table's scope, so the
store raises `no such column: rank` and `semantic.search` propagates the
exception (for every store, relevance assignment, query and limit). -/
theorem search_fts_video_filter_raises (st : RepoState)
    (relevance : ArtifactRow → Option ℚ) (q : String) (limit : ℕ) (vid : String)
    (simf : List ℚ → List ℚ → ℚ) (embedQuery : Except String (List (List ℚ))) :
    search_fts st relevance q limit (some vid) = .error (.noSuchColumn "rank") ∧
    search st relevance simf embedQuery q limit (some vid) =
      .error (.noSuchColumn "rank") :=
  ⟨rfl, rfl⟩

end AV

namespace AV

/-- Helper: the chunk count. -/
lemma num_chunks_length (D : ℚ) (c : ℕ) :
    (cascadeChunks D c).length = num_chunks D c := by
  simp [cascadeChunks]

/-- Claim C5 (as amended) — For `c > 0`, layer 0 partitions `[0, D)` into
`max(1, ceil(D / c))` chunks — which equals `ceil(D / c)` whenever `D > 0` —
with chunk `k` spanning `[k·c, min((k+1)·c, D))`. -/
theorem cascadeChunks_partition (D : ℚ) (c : ℕ) (hc : 0 < c) :
    (cascadeChunks D c).length = (max 1 ⌈D / (c : ℚ)⌉).toNat ∧
    (0 < D → ((cascadeChunks D c).length : ℤ) = ⌈D / (c : ℚ)⌉) ∧
    ∀ (k : ℕ) (h : k < (cascadeChunks D c).length),
      (cascadeChunks D c)[k] = ((k : ℚ) * c, min (((k : ℚ) + 1) * c) D) := by
  refine ⟨by simp [cascadeChunks, num_chunks], ?_, ?_⟩
  · intro hD
    have hcq : (0 : ℚ) < (c : ℚ) := by exact_mod_cast hc
    have hpos : 0 < ⌈D / (c : ℚ)⌉ := Int.ceil_pos.2 (div_pos hD hcq)
    rw [num_chunks_length]
    unfold num_chunks
    omega
  · intro k h
    have hk : k < num_chunks D c := by rwa [num_chunks_length] at h
    simp [cascadeChunks, chunkStart, chunkEnd]
    ring_nf

/-- Witness for `cascadeChunks_partition`: `D = 90`, `c = 30` gives exactly
3 chunks with boundaries `[0,30)`, `[30,60)`, `[60,90)`; the final chunk's
end equals `D` exactly. -/
theorem cascadeChunks_partition_witness :
    0 < 30 ∧ (0 : ℚ) < 90 ∧
    (((cascadeChunks 90 30).length : ℤ) = ⌈(90 : ℚ) / (30 : ℚ)⌉) ∧
    cascadeChunks 90 30 = [(0, 30), (30, 60), (60, 90)] := by
  refine ⟨by norm_num, by norm_num,
    (cascadeChunks_partition 90 30 (by norm_num)).2.1 (by norm_num), ?_⟩
  have h3 : num_chunks 90 30 = 3 := by
    have : ⌈(90 : ℚ) / (30 : ℚ)⌉ = 3 := by norm_num
    simp [num_chunks, this]
  simp [cascadeChunks, h3, chunkStart, chunkEnd, List.range_succ]
  norm_num

/-- Claim C5, counterexample — For `D = 0`, `c = 30` the code produces
`max(1, ceil(0/30)) = 1` chunk, not `ceil(0/30) = 0` chunks as the claim
states. -/
theorem cascadeChunks_zero_duration_counterexample :
    (cascadeChunks 0 30).length = 1 ∧ ⌈(0 : ℚ) / (30 : ℚ)⌉ = 0 ∧
    ¬ ((cascadeChunks 0 30).length = (⌈(0 : ℚ) / (30 : ℚ)⌉).toNat) := by
  have h0 : ⌈(0 : ℚ) / (30 : ℚ)⌉ = 0 := by norm_num
  refine ⟨?_, h0, ?_⟩
  · simp [num_chunks_length, num_chunks, h0]
  · simp [num_chunks_length, num_chunks, h0]

end AV

namespace AV

/-- Claim C6 (as amended) — For every layer-0 chunk whose captioner reply is
`t`: if `t`, trimmed and upper-cased, equals the sentinel `"STATIC"`, the
chunk yields zero artifacts (replacing its outcome by a failed chunk — which
certainly contributes nothing — leaves layer 0 unchanged); if `t` is
non-empty and not the sentinel, the reply becomes a caption artifact
spanning exactly that chunk's time range. -/
theorem layer0_sentinel_drop (ids : ℕ → String) (vid : String) (cfg : AVConfig)
    (topic : String) (D : ℚ) (c : ℕ) (step : ℕ → ChunkStep) (k : ℕ) (t : String)
    (hk : step k = ChunkStep.reply t) :
    (pyUpper (pyStrip t) = "STATIC" →
      cascade_layer0 ids vid cfg topic D c step =
        cascade_layer0 ids vid cfg topic D c
          (fun j => if j = k then ChunkStep.fail else step j)) ∧
    (t ≠ "" → pyUpper (pyStrip t) ≠ "STATIC" → k < num_chunks D c →
      mkChunkArtifact ids vid cfg topic D c k t ∈
        cascade_layer0 ids vid cfg topic D c step ∧
      (mkChunkArtifact ids vid cfg topic D c k t).text = t ∧
      (mkChunkArtifact ids vid cfg topic D c k t).start_sec = chunkStart c k ∧
      (mkChunkArtifact ids vid cfg topic D c k t).end_sec =
        some (chunkEnd D c k)) := by
  constructor
  · intro hs
    unfold cascade_layer0
    refine List.filterMap_congr (fun j _ => ?_)
    by_cases hj : j = k
    · subst hj
      simp [chunkArtifact, hk, hs]
    · simp [chunkArtifact, hj]
  · intro ht hs hkn
    refine ⟨?_, rfl, rfl, rfl⟩
    unfold cascade_layer0
    refine List.mem_filterMap.2 ⟨k, List.mem_range.2 hkn, ?_⟩
    simp [chunkArtifact, hk, ht, hs]

/-- Witness for `layer0_sentinel_drop`: the inputs `"STATIC"`, `"  static  "`
and `"Static"` all normalize to the sentinel and drop their chunk; a
non-sentinel reply is kept as a caption artifact for its chunk. -/
theorem layer0_sentinel_drop_witness :
    pyUpper (pyStrip "STATIC") = "STATIC" ∧
    pyUpper (pyStrip "  static  ") = "STATIC" ∧
    pyUpper (pyStrip "Static") = "STATIC" ∧
    cascade_layer0 (fun _ => "a0") "v" {} "general" 30 30
        (fun _ => ChunkStep.reply "  static  ") =
      cascade_layer0 (fun _ => "a0") "v" {} "general" 30 30
        (fun j => if j = 0 then ChunkStep.fail else ChunkStep.reply "  static  ") ∧
    mkChunkArtifact (fun _ => "a0") "v" {} "general" 30 30 0 "A person walks in." ∈
      cascade_layer0 (fun _ => "a0") "v" {} "general" 30 30
        (fun _ => ChunkStep.reply "A person walks in.") := by
  refine ⟨by decide, by decide, by decide, ?_, ?_⟩
  · exact (layer0_sentinel_drop (fun _ => "a0") "v" {} "general" 30 30
      (fun _ => ChunkStep.reply "  static  ") 0 "  static  " rfl).1 (by decide)
  · refine ((layer0_sentinel_drop (fun _ => "a0") "v" {} "general" 30 30
      (fun _ => ChunkStep.reply "A person walks in.") 0 "A person walks in." rfl).2
      (by decide) (by decide) ?_).1
    have : ⌈(30 : ℚ) / (30 : ℚ)⌉ = 1 := by norm_num
    simp [num_chunks, this]

/-- Claim C6, counterexample — An empty captioner reply is not the sentinel
(its trim-and-upper normal form is `""`, not `"STATIC"`), yet the chunk
yields zero artifacts instead of becoming a caption artifact: the claim's
"otherwise" arm fails at the reply `""`. -/
theorem layer0_empty_reply_counterexample :
    pyUpper (pyStrip "") ≠ "STATIC" ∧
    cascade_layer0 (fun _ => "a0") "v" {} "general" 30 30
      (fun _ => ChunkStep.reply "") = [] := by
  constructor
  · decide
  · have h1 : num_chunks 30 30 = 1 := by
      have : ⌈(30 : ℚ) / (30 : ℚ)⌉ = 1 := by norm_num
      simp [num_chunks, this]
    simp [cascade_layer0, h1, chunkArtifact]

end AV

namespace AV

/-- Claim C4 — Cascade state flows strictly forward.  With `L0` the layer-0
output: (1) if `L0` is empty, layers 1 and 2 are empty too; (2) if the
layer-1 call fails, or its reply (stripped) equals the `NO_EVENTS`
sentinel, the already-produced `L0` is returned untouched and layer 2 is
empty; (3) if layer 1 succeeds but the layer-2 call fails, layers 0 and 1
are returned unchanged and layer 2 is empty. -/
theorem run_cascade_forward_flow (ids : ℕ → String) (id1 id2 vid : String)
    (cfg : AVConfig) (topic : String) (D : ℚ) (c : ℕ) (step : ℕ → ChunkStep)
    (llm : String → String → Except String String) (L0 : List ArtifactRow)
    (hL0 : cascade_layer0 ids vid cfg topic D c step = L0) :
    (L0 = [] →
      run_cascade ids id1 id2 vid cfg topic D c step llm = ([], [], [])) ∧
    (L0 ≠ [] →
      ((∃ e, llm LAYER1_SYSTEM_PROMPT (layer1UserContent L0) = .error e) ∨
       (∃ s, llm LAYER1_SYSTEM_PROMPT (layer1UserContent L0) = .ok s ∧
          pyStrip s = "NO_EVENTS")) →
      run_cascade ids id1 id2 vid cfg topic D c step llm = (L0, [], [])) ∧
    (∀ s e2, L0 ≠ [] →
      llm LAYER1_SYSTEM_PROMPT (layer1UserContent L0) = .ok s →
      s ≠ "" → pyStrip s ≠ "NO_EVENTS" →
      llm LAYER2_SYSTEM_PROMPT s = .error e2 →
      run_cascade ids id1 id2 vid cfg topic D c step llm =
        (L0, [mkLayer1Artifact id1 vid cfg topic D L0.length s], [])) := by
  refine ⟨?_, ?_, ?_⟩
  · intro h
    simp only [run_cascade, hL0, h]
    simp
  · intro hne hfail
    simp only [run_cascade, hL0]
    rw [if_neg hne]
    rcases hfail with ⟨e, he⟩ | ⟨s, hs, hsent⟩
    · simp [he]
    · simp [hs, hsent]
  · intro s e2 hne h1 hs hsent h2
    simp only [run_cascade, hL0]
    rw [if_neg hne]
    simp [h1, hs, hsent, mkLayer1Artifact, h2]

/-- Witness for `run_cascade_forward_flow`: a one-chunk video exercising all
three implications — an all-failed layer 0, a layer-1 failure that keeps
layer 0, and a layer-2 failure that keeps layers 0 and 1. -/
theorem run_cascade_forward_flow_witness :
    run_cascade (fun _ => "a0") "s1" "r1" "v" {} "general" 30 30
        (fun _ => ChunkStep.fail) (fun _ _ => .error "down") = ([], [], []) ∧
    run_cascade (fun _ => "a0") "s1" "r1" "v" {} "general" 30 30
        (fun _ => ChunkStep.reply "x") (fun _ _ => .error "down") =
      ([mkChunkArtifact (fun _ => "a0") "v" {} "general" 30 30 0 "x"], [], []) ∧
    run_cascade (fun _ => "a0") "s1" "r1" "v" {} "general" 30 30
        (fun _ => ChunkStep.reply "x")
        (fun sys _ => if sys = LAYER2_SYSTEM_PROMPT then .error "boom" else .ok "events") =
      ([mkChunkArtifact (fun _ => "a0") "v" {} "general" 30 30 0 "x"],
       [mkLayer1Artifact "s1" "v" {} "general" 30 1 "events"], []) := by
  have h1 : num_chunks 30 30 = 1 := by
    have : ⌈(30 : ℚ) / (30 : ℚ)⌉ = 1 := by norm_num
    simp [num_chunks, this]
  have hxkeep : ¬("x" = "" ∨ pyUpper (pyStrip "x") = "STATIC") := by decide
  have hxns : ¬ pyUpper (pyStrip "x") = "STATIC" := by decide
  have hL0fail : cascade_layer0 (fun _ => "a0") "v" {} "general" 30 30
      (fun _ => ChunkStep.fail) = [] := by
    simp [cascade_layer0, h1, chunkArtifact]
  have hL0x : cascade_layer0 (fun _ => "a0") "v" {} "general" 30 30
      (fun _ => ChunkStep.reply "x") =
      [mkChunkArtifact (fun _ => "a0") "v" {} "general" 30 30 0 "x"] := by
    simp [cascade_layer0, h1, chunkArtifact, hxkeep, List.range_succ, List.range_zero, List.filterMap_cons, hxns]
  refine ⟨?_, ?_, ?_⟩
  · exact (run_cascade_forward_flow (fun _ => "a0") "s1" "r1" "v" {} "general" 30 30
      (fun _ => ChunkStep.fail) (fun _ _ => .error "down") [] hL0fail).1 rfl
  · exact (run_cascade_forward_flow (fun _ => "a0") "s1" "r1" "v" {} "general" 30 30
      (fun _ => ChunkStep.reply "x") (fun _ _ => .error "down") _ hL0x).2.1
      (by simp) (Or.inl ⟨"down", rfl⟩)
  · refine (run_cascade_forward_flow (fun _ => "a0") "s1" "r1" "v" {} "general" 30 30
      (fun _ => ChunkStep.reply "x")
      (fun sys _ => if sys = LAYER2_SYSTEM_PROMPT then .error "boom" else .ok "events")
      _ hL0x).2.2 "events" "boom" (by simp) ?_ (by decide) (by decide) ?_
    · rw [if_neg (by decide : ¬ LAYER1_SYSTEM_PROMPT = LAYER2_SYSTEM_PROMPT)]
    · rw [if_pos rfl]

end AV

namespace AV

/-- The helper `roundTo` is monotone (needed to carry descending order through the
score rounding). -/
lemma roundTo_mono (p : ℕ) {a b : ℚ} (h : a ≤ b) : roundTo p a ≤ roundTo p b := by
  unfold roundTo
  have hp : (0 : ℚ) < 10 ^ p := by positivity
  have h1 : a * 10 ^ p ≤ b * 10 ^ p := mul_le_mul_of_nonneg_right h (le_of_lt hp)
  have h2 : round (a * 10 ^ p) ≤ round (b * 10 ^ p) := by
    rw [round_eq, round_eq]
    exact Int.floor_mono (by linarith)
  have h3 : ((round (a * 10 ^ p) : ℤ) : ℚ) ≤ ((round (b * 10 ^ p) : ℤ) : ℚ) := by
    exact_mod_cast h2
  exact (div_le_div_iff_of_pos_right hp).2 h3

end AV


namespace AV

lemma renumber_map_rank (l : List (ℚ × SearchResult)) :
    (renumber l).map (·.rank) = List.range' 1 l.length := by
  unfold renumber
  rw [List.map_map]
  have h1 : ((fun r : SearchResult => r.rank) ∘ fun p : ℕ × ℚ × SearchResult =>
      match p with
      | (i, sim, r) => { r with rank := i + 1, score := roundTo 4 sim }) =
      (fun p : ℕ × ℚ × SearchResult => p.1 + 1) := by
    funext p
    rcases p with ⟨i, sim, r⟩
    rfl
  rw [h1, List.range'_eq_map_range, ← List.enum_map_fst l, List.map_map]
  refine List.map_congr_left (fun p _ => ?_)
  simp [Nat.add_comm]

lemma renumber_map_score (l : List (ℚ × SearchResult)) :
    (renumber l).map (·.score) = l.map (fun p => roundTo 4 p.1) := by
  unfold renumber
  rw [List.map_map]
  have h1 : ((fun r : SearchResult => r.score) ∘ fun p : ℕ × ℚ × SearchResult =>
      match p with
      | (i, sim, r) => { r with rank := i + 1, score := roundTo 4 sim }) =
      ((fun q : ℚ × SearchResult => roundTo 4 q.1) ∘ Prod.snd) := by
    funext p
    rcases p with ⟨i, sim, r⟩
    rfl
  rw [h1, ← List.map_map, List.enum_map_snd]

theorem rerank_spec (simf : List ℚ → List ℚ → ℚ) (limit : ℕ)
    (embDict : List (String × List ℚ)) (fts_results : List SearchResult)
    (hne : embDict ≠ []) :
    (∀ qv rest, RerankOk simf limit embDict qv rest fts_results) ∧
    (∀ qv, ∀ r ∈ fts_results, (∀ kv ∈ embDict, some kv.1 ≠ r.artifact_id) →
      rerankScore simf embDict qv r = 0) ∧
    (∀ qv rest,
      ((rerank simf limit embDict (.ok (qv :: rest)) fts_results).map (·.rank) =
        List.range' 1 (min limit fts_results.length)) ∧
      ((rerank simf limit embDict (.ok (qv :: rest)) fts_results).map (·.score)).Pairwise
        (fun x y => y ≤ x)) ∧
    (∀ msg, rerank simf limit embDict (.error msg) fts_results =
      fts_results.take limit) := by
  letI rel : (ℚ × SearchResult) → (ℚ × SearchResult) → Prop := fun x y => y.1 ≤ x.1
  haveI : IsTotal (ℚ × SearchResult) rel := ⟨fun a b => le_total b.1 a.1⟩
  haveI : IsTrans (ℚ × SearchResult) rel := ⟨fun _ _ _ hab hbc => le_trans hbc hab⟩
  have hout : ∀ qv rest, rerank simf limit embDict (.ok (qv :: rest)) fts_results =
      renumber (((fts_results.map (fun r => (rerankScore simf embDict qv r, r))).insertionSort
        rel).take limit) := by
    intro qv rest
    simp [rerank, hne, renumber]
  have hsortlen : ∀ qv,
      ((fts_results.map (fun r => (rerankScore simf embDict qv r, r))).insertionSort
        rel).length = fts_results.length := by
    intro qv
    rw [(List.perm_insertionSort rel _).length_eq, List.length_map]
  have hsorted : ∀ qv, ((fts_results.map (fun r =>
      (rerankScore simf embDict qv r, r))).insertionSort rel).Pairwise rel :=
    fun _ => List.sorted_insertionSort rel _
  refine ⟨?_, ?_, ?_, ?_⟩
  · intro qv rest
    refine ⟨(fts_results.map (fun r => (rerankScore simf embDict qv r, r))).insertionSort rel,
      ?_, hsorted qv, ?_, hout qv rest⟩
    · have hp := (List.perm_insertionSort rel
        (fts_results.map (fun r => (rerankScore simf embDict qv r, r)))).map Prod.snd
      rw [List.map_map] at hp
      have h2 : (Prod.snd ∘ fun r : SearchResult => (rerankScore simf embDict qv r, r)) =
          id := by
        funext r
        rfl
      rw [h2, List.map_id] at hp
      exact hp
    · intro p hp
      have hmem : p ∈ fts_results.map (fun r => (rerankScore simf embDict qv r, r)) :=
        (List.perm_insertionSort rel _).subset hp
      rcases List.mem_map.1 hmem with ⟨r0, _, hr0⟩
      rw [← hr0]
  · intro qv r _ hnone
    have hlook : ∀ aid : String, r.artifact_id = some aid →
        dictLookup embDict aid = none := by
      intro aid har
      rw [dictLookup, List.lookup_eq_none_iff]
      intro p hp
      have hmem : p ∈ embDict := List.mem_reverse.1 hp
      have hne2 := hnone p hmem
      rw [har] at hne2
      simp only [ne_eq, Option.some.injEq] at hne2
      simp [bne_iff_ne]
      exact fun h => hne2 h.symm
    unfold rerankScore
    rcases har : r.artifact_id with _ | aid
    · rfl
    · show (if aid = "" then (0 : ℚ)
        else match dictLookup embDict aid with
          | some e => simf qv e
          | none => (0 : ℚ)) = 0
      rw [hlook aid har]
      by_cases h : aid = "" <;> simp [h]
  · intro qv rest
    constructor
    · rw [hout qv rest, renumber_map_rank, List.length_take, hsortlen]
    · rw [hout qv rest, renumber_map_score]
      have htake : ((fts_results.map (fun r =>
          (rerankScore simf embDict qv r, r))).insertionSort rel).take limit
          |>.Pairwise rel :=
        (hsorted qv).sublist (List.take_sublist _ _)
      exact htake.map _ (fun a b hab => roundTo_mono 4 hab)
  · intro msg
    simp [rerank, hne]

end AV

namespace AV

/-! Stage lemmas: the degraded stages never touch the `videos` table. -/

lemma stage_transcribe_videos (cfg : AVConfig) (ids : IdSource)
    (outc : Except String (List TranscriptSegment)) (ctx : StageCtx) :
    (stage_transcribe cfg ids outc ctx).st.videos = ctx.st.videos := by
  unfold stage_transcribe
  dsimp only
  split
  · split
    · split <;> rfl
    · rfl
  · rfl

lemma stage_cascade_videos (opts : IngestOptions)
    (outc : Except String (List ArtifactRow × List ArtifactRow × List ArtifactRow))
    (ctx : StageCtx) :
    (stage_cascade opts outc ctx).st.videos = ctx.st.videos := by
  unfold stage_cascade
  dsimp only
  split
  · split
    · split <;> rfl
    · rfl
  · rfl

lemma stage_frame_captions_videos (cfg : AVConfig) (opts : IngestOptions)
    (ids : IdSource) (outc : Except String (List FrameCaption)) (ctx : StageCtx) :
    (stage_frame_captions cfg opts ids outc ctx).st.videos = ctx.st.videos := by
  unfold stage_frame_captions
  dsimp only
  split
  · split
    · split <;> rfl
    · rfl
  · rfl

lemma stage_dense_videos (cfg : AVConfig) (opts : IngestOptions) (ids : IdSource)
    (pp : Option String) (outc : Except String (List FrameCaption)) (ctx : StageCtx) :
    (stage_dense cfg opts ids pp outc ctx).st.videos = ctx.st.videos := by
  unfold stage_dense
  dsimp only
  split
  · split
    · split <;> rfl
    · rfl
  · rfl

lemma embedGo_videos (cfg : AVConfig) (eIds : ℕ → String)
    (embf : ℕ → Except String (List (List ℚ))) :
    ∀ (batches : List (List ArtifactRow)) (j counter : ℕ) (st : RepoState),
    (embedGo cfg eIds embf batches j counter st).1.videos = st.videos := by
  intro batches
  induction batches with
  | nil => intro j c st; rfl
  | cons b rest ih =>
      intro j c st
      rw [embedGo]
      cases hf : embf j with
      | error e => rfl
      | ok vectors => exact ih (j + 1) _ _

lemma stage_embed_warn_videos (cfg : AVConfig) (opts : IngestOptions) (ctx : StageCtx) :
    (stage_embed_warn cfg opts ctx).st.videos = ctx.st.videos := by
  unfold stage_embed_warn
  split <;> rfl

lemma stage_embed_run_videos (cfg : AVConfig) (opts : IngestOptions) (ids : IdSource)
    (embf : ℕ → Except String (List (List ℚ))) (ctx : StageCtx) :
    (stage_embed_run cfg opts ids embf ctx).st.videos = ctx.st.videos := by
  unfold stage_embed_run
  dsimp only
  split
  · split
    · rcases hgo : embedGo cfg ids.eIds embf (chunk100
        (ctx.transcript_artifacts ++ ctx.caption_artifacts ++ ctx.dense_artifacts)) 0 0
        ctx.st with ⟨st2, w⟩
      have hv := embedGo_videos cfg ids.eIds embf (chunk100
        (ctx.transcript_artifacts ++ ctx.caption_artifacts ++ ctx.dense_artifacts)) 0 0 ctx.st
      rw [hgo] at hv
      cases w <;> simpa using hv
    · rfl
  · rfl

lemma stage_embed_videos (cfg : AVConfig) (opts : IngestOptions) (ids : IdSource)
    (embf : ℕ → Except String (List (List ℚ))) (ctx : StageCtx) :
    (stage_embed cfg opts ids embf ctx).st.videos = ctx.st.videos := by
  unfold stage_embed
  rw [stage_embed_run_videos, stage_embed_warn_videos]

/-- The whole degraded-stage pipeline leaves `videos` unchanged. -/
lemma stages_videos (cfg : AVConfig) (opts : IngestOptions) (ids : IdSource)
    (pp : Option String) (so : StageOutcomes) (ctx : StageCtx) :
    (stage_embed cfg opts ids so.embed
      (stage_dense cfg opts ids pp so.dense_caps
        (stage_frame_captions cfg opts ids so.frame_caps
          (stage_cascade opts so.cascade
            (stage_transcribe cfg ids so.transcribe ctx))))).st.videos = ctx.st.videos := by
  rw [stage_embed_videos, stage_dense_videos, stage_frame_captions_videos,
    stage_cascade_videos, stage_transcribe_videos]

/-- Updating the status of a freshly appended row: the lookup finds exactly
that row, updated. -/
lemma find?_update_append (l : List VideoRow) (v : VideoRow) (s : String)
    (err : Option String) (hl : ∀ w ∈ l, w.id ≠ v.id) :
    ((l ++ [v]).map (fun w =>
        if w.id = v.id then { w with status := s, error_message := err } else w)).find?
      (fun w => w.id = v.id) = some { v with status := s, error_message := err } := by
  induction l with
  | nil => simp
  | cons a l ih =>
      have ha : a.id ≠ v.id := hl a (by simp)
      simp only [List.cons_append, List.map_cons, if_neg ha]
      rw [List.find?_cons_of_neg _ (by simpa using ha)]
      exact ih (fun w hw => hl w (by simp [hw]))

end AV

namespace AV

lemma videoStatus_update_append (S : RepoState) (base : List VideoRow) (v : VideoRow)
    (s : String) (err : Option String) (hS : S.videos = base ++ [v])
    (hbase : ∀ w ∈ base, w.id ≠ v.id) :
    videoStatus (update_video_status S v.id s err) v.id = some s := by
  unfold videoStatus update_video_status
  dsimp only
  rw [hS, find?_update_append base v s err hbase]
  rfl

/-- Finalization facts for any run of `ingest_main` that returns a result
dict other than the dry-run preview: the persisted status of the returned
video id is always `"complete"`, while the returned status is `"complete"`
exactly when no warnings were recorded, else `"complete_with_warnings"`. -/
lemma ingest_main_finalize (cfg : AVConfig) (opts : IngestOptions) (ids : IdSource)
    (fhash filename fp : String) (pp : Option String) (so : StageOutcomes)
    (st0 st' : RepoState) (r : IngestResult)
    (h : ingest_main cfg opts ids fhash filename fp pp so st0 = (st', .ok r))
    (hd : r.status ≠ "dry_run") :
    videoStatus st' r.video_id = some "complete" ∧
    (r.status = "complete" ↔ r.warnings = []) ∧
    (r.status = "complete" ∨ r.status = "complete_with_warnings") := by
  unfold ingest_main at h
  split at h
  · exact absurd (congrArg Prod.snd h) (by simp)
  · dsimp only at h
    split at h
    · injection h with h1 h2
      injection h2 with h2
      subst h2
      exact absurd rfl hd
    · rename_i meta hdry
      split at h
      · exact absurd (congrArg Prod.snd h) (by simp)
      · rename_i st1 hins
        unfold insert_video at hins
        split at hins
        · cases hins
        · rename_i hguard
          injection hins with hins
          injection h with h1 h2
          injection h2 with h2
          subst h2
          subst h1
          have hfresh : ∀ w ∈ st0.videos, w.id ≠ ids.video_id := by
            intro w hw hEq
            refine hguard ?_
            rw [List.any_eq_true]
            exact ⟨w, hw, by simp [hEq]⟩
          have hv := stages_videos cfg opts ids pp so
            ⟨st1, [], 0, [], [], [], []⟩
          have hv2 := congrArg RepoState.videos hins
          refine ⟨?_, ?_, ?_⟩
          · exact videoStatus_update_append _ st0.videos _ "complete" none
              (hv.trans hv2.symm) hfresh
          · by_cases hw : (stage_embed cfg opts ids so.embed
                (stage_dense cfg opts ids pp so.dense_caps
                  (stage_frame_captions cfg opts ids so.frame_caps
                    (stage_cascade opts so.cascade
                      (stage_transcribe cfg ids so.transcribe
                        ⟨st1, [], 0, [], [], [], []⟩))))).warnings = [] <;>
              simp [hw]
          · by_cases hw : (stage_embed cfg opts ids so.embed
                (stage_dense cfg opts ids pp so.dense_caps
                  (stage_frame_captions cfg opts ids so.frame_caps
                    (stage_cascade opts so.cascade
                      (stage_transcribe cfg ids so.transcribe
                        ⟨st1, [], 0, [], [], [], []⟩))))).warnings = [] <;>
              simp [hw]

end AV

namespace AV

lemma FreshRows.append {o : String} {i : List String} {l1 l2 : List ArtifactRow}
    (h1 : FreshRows o i l1) (h2 : FreshRows o i l2) : FreshRows o i (l1 ++ l2) :=
  fun a ha => (List.mem_append.1 ha).elim (h1 a) (h2 a)

lemma NoOld.insert_artifacts {o : String} {i : List String} {s : RepoState}
    {rows : List ArtifactRow} (h : NoOld o i s) (hrows : FreshRows o i rows) :
    NoOld o i (insert_artifacts_batch s rows) := by
  refine ⟨?_, h.2⟩
  intro a ha
  simp only [insert_artifacts_batch] at ha
  rcases List.mem_append.1 ha with h1 | h1
  · exact h.1 a h1
  · exact (hrows a h1).1

lemma NoOld.insert_embeddings {o : String} {i : List String} {s : RepoState}
    {rows : List EmbeddingRow} (h : NoOld o i s)
    (hrows : ∀ e ∈ rows, ¬ e.artifact_id ∈ i) :
    NoOld o i (insert_embeddings_batch s rows) := by
  refine ⟨h.1, ?_⟩
  intro e he
  simp only [insert_embeddings_batch] at he
  rcases List.mem_append.1 he with h1 | h1
  · exact h.2 e h1
  · exact hrows e h1

lemma stage_transcribe_CtxOk (cfg : AVConfig) (ids : IdSource)
    (outc : Except String (List TranscriptSegment)) {o : String} {i : List String}
    {ctx : StageCtx} (hvid : ids.video_id ≠ o) (ht : ∀ n, ¬ ids.tIds n ∈ i)
    (h : CtxOk o i ctx) : CtxOk o i (stage_transcribe cfg ids outc ctx) := by
  obtain ⟨hst, hT, hC, hK, hD⟩ := h
  have harts : ∀ segs : List TranscriptSegment, FreshRows o i (segs.enum.map (fun p =>
      match p with
      | (n, seg) =>
        ({ id := ids.tIds n, video_id := ids.video_id, type := "transcript",
           start_sec := seg.start_sec, end_sec := some seg.end_sec, text := seg.text,
           meta_json := some (jsonObj [("model", jsonStrLit cfg.transcribe_model)]) }
          : ArtifactRow))) := by
    intro segs a ha
    rcases List.mem_map.1 ha with ⟨p, _, hpa⟩
    rcases p with ⟨n, seg⟩
    rw [← hpa]
    exact ⟨hvid, ht n⟩
  unfold stage_transcribe
  dsimp only
  split
  · split
    · split
      · exact ⟨hst.insert_artifacts (harts _), harts _, hC, hK, hD⟩
      · exact ⟨hst, harts _, hC, hK, hD⟩
    · exact ⟨hst, hT, hC, hK, hD⟩
  · exact ⟨hst, hT, hC, hK, hD⟩

lemma stage_cascade_CtxOk (opts : IngestOptions)
    (outc : Except String (List ArtifactRow × List ArtifactRow × List ArtifactRow))
    {o : String} {i : List String} {ctx : StageCtx}
    (hcas : ∀ x, outc = .ok x → FreshRows o i (x.1 ++ x.2.1 ++ x.2.2))
    (h : CtxOk o i ctx) : CtxOk o i (stage_cascade opts outc ctx) := by
  obtain ⟨hst, hT, hC, hK, hD⟩ := h
  unfold stage_cascade
  dsimp only
  split
  · rcases outc with e | ⟨l0, l1, l2⟩
    · exact ⟨hst, hT, hC, hK, hD⟩
    · have hfresh : FreshRows o i (l0 ++ l1 ++ l2) := hcas (l0, l1, l2) rfl
      dsimp only
      split
      · exact ⟨hst.insert_artifacts hfresh, hT, hC.append hfresh, hfresh, hD⟩
      · exact ⟨hst, hT, hC, hfresh, hD⟩
  · exact ⟨hst, hT, hC, hK, hD⟩

lemma stage_frame_captions_CtxOk (cfg : AVConfig) (opts : IngestOptions)
    (ids : IdSource) (outc : Except String (List FrameCaption))
    {o : String} {i : List String} {ctx : StageCtx}
    (hvid : ids.video_id ≠ o) (hf : ∀ n, ¬ ids.fIds n ∈ i)
    (h : CtxOk o i ctx) : CtxOk o i (stage_frame_captions cfg opts ids outc ctx) := by
  obtain ⟨hst, hT, hC, hK, hD⟩ := h
  have harts : ∀ caps : List FrameCaption, FreshRows o i (caps.enum.map (fun p =>
      match p with
      | (n, cap) =>
        ({ id := ids.fIds n, video_id := ids.video_id, type := "caption",
           start_sec := cap.timestamp_sec, end_sec := none, text := cap.text,
           meta_json := some (jsonObj [("model", jsonStrLit cfg.vision_model)]) }
          : ArtifactRow))) := by
    intro caps a ha
    rcases List.mem_map.1 ha with ⟨p, _, hpa⟩
    rcases p with ⟨n, cap⟩
    rw [← hpa]
    exact ⟨hvid, hf n⟩
  unfold stage_frame_captions
  dsimp only
  split
  · split
    · rename_i caps
      have hcap2 : FreshRows o i (ctx.caption_artifacts ++ caps.enum.map _) :=
        hC.append (harts caps)
      have hfc : FreshRows o i ((ctx.caption_artifacts ++ caps.enum.map _).filter
          (fun a => ¬ a ∈ ctx.cascade_artifacts)) :=
        fun a ha => hcap2 a (List.mem_of_mem_filter ha)
      split
      · exact ⟨hst.insert_artifacts hfc, hT, hcap2, hK, hD⟩
      · exact ⟨hst, hT, hcap2, hK, hD⟩
    · exact ⟨hst, hT, hC, hK, hD⟩
  · exact ⟨hst, hT, hC, hK, hD⟩

lemma stage_dense_CtxOk (cfg : AVConfig) (opts : IngestOptions) (ids : IdSource)
    (pp : Option String) (outc : Except String (List FrameCaption))
    {o : String} {i : List String} {ctx : StageCtx}
    (hvid : ids.video_id ≠ o) (hdi : ∀ n, ¬ ids.dIds n ∈ i)
    (h : CtxOk o i ctx) : CtxOk o i (stage_dense cfg opts ids pp outc ctx) := by
  obtain ⟨hst, hT, hC, hK, hD⟩ := h
  have harts : ∀ caps : List FrameCaption, FreshRows o i (caps.enum.map (fun p =>
      match p with
      | (n, cap) =>
        ({ id := ids.dIds n, video_id := ids.video_id, type := "dense_caption",
           start_sec := cap.timestamp_sec, end_sec := none, text := cap.text,
           meta_json := some (jsonObj
             [("model", jsonStrLit cfg.vision_model),
              ("principles_path", match pp with
                | some p => jsonStrLit p
                | none => "null"),
              ("prompt_template", jsonStrLit "prompts/dense_caption.md")]) }
          : ArtifactRow))) := by
    intro caps a ha
    rcases List.mem_map.1 ha with ⟨p, _, hpa⟩
    rcases p with ⟨n, cap⟩
    rw [← hpa]
    exact ⟨hvid, hdi n⟩
  unfold stage_dense
  dsimp only
  split
  · split
    · split
      · exact ⟨hst.insert_artifacts (harts _), hT, hC, hK, harts _⟩
      · exact ⟨hst, hT, hC, hK, harts _⟩
    · exact ⟨hst, hT, hC, hK, hD⟩
  · exact ⟨hst, hT, hC, hK, hD⟩

lemma mem_of_mem_chunk100 {l : List ArtifactRow} {b : List ArtifactRow}
    (hb : b ∈ chunk100 l) {a : ArtifactRow} (ha : a ∈ b) : a ∈ l := by
  unfold chunk100 at hb
  rcases List.mem_map.1 hb with ⟨j, _, hjb⟩
  rw [← hjb] at ha
  exact List.mem_of_mem_drop (List.mem_of_mem_take ha)

lemma embedGo_NoOld (cfg : AVConfig) (eIds : ℕ → String)
    (embf : ℕ → Except String (List (List ℚ))) {o : String} {i : List String} :
    ∀ (batches : List (List ArtifactRow)) (j counter : ℕ) (st : RepoState),
    (∀ b ∈ batches, ∀ a ∈ b, ¬ a.id ∈ i) → NoOld o i st →
    NoOld o i (embedGo cfg eIds embf batches j counter st).1 := by
  intro batches
  induction batches with
  | nil => intro j c st _ h; exact h
  | cons b rest ih =>
      intro j c st hb h
      rw [embedGo]
      cases hf : embf j with
      | error e => exact h
      | ok vectors =>
          refine ih (j + 1) _ _ (fun b2 hb2 => hb b2 (by simp [hb2])) ?_
          refine h.insert_embeddings ?_
          intro e he
          rcases List.mem_map.1 he with ⟨p, hp, hpe⟩
          rcases p with ⟨n, a, vec⟩
          have hmem : (a, vec) ∈ b.zip vectors := by
            have := List.mem_map_of_mem Prod.snd hp
            rwa [List.enum_map_snd] at this
          have haB : a ∈ b := (List.of_mem_zip hmem).1
          rw [← hpe]
          exact hb b (by simp) a haB

lemma stage_embed_CtxOk (cfg : AVConfig) (opts : IngestOptions) (ids : IdSource)
    (embf : ℕ → Except String (List (List ℚ))) {o : String} {i : List String}
    {ctx : StageCtx} (h : CtxOk o i ctx) :
    CtxOk o i (stage_embed cfg opts ids embf ctx) := by
  have hwarn : CtxOk o i (stage_embed_warn cfg opts ctx) := by
    unfold stage_embed_warn
    split
    · exact h
    · exact h
  unfold stage_embed
  generalize hc : stage_embed_warn cfg opts ctx = ctx2 at hwarn
  obtain ⟨hst, hT, hC, hK, hD⟩ := hwarn
  unfold stage_embed_run
  dsimp only
  split
  · split
    · have hbatches : ∀ b ∈ chunk100
          (ctx2.transcript_artifacts ++ ctx2.caption_artifacts ++ ctx2.dense_artifacts),
          ∀ a ∈ b, ¬ a.id ∈ i := by
        intro b hb a ha
        have hmem := mem_of_mem_chunk100 hb ha
        rcases List.mem_append.1 hmem with h1 | h1
        · rcases List.mem_append.1 h1 with h2 | h2
          · exact (hT a h2).2
          · exact (hC a h2).2
        · exact (hD a h1).2
      have hgo := embedGo_NoOld cfg ids.eIds embf (chunk100
        (ctx2.transcript_artifacts ++ ctx2.caption_artifacts ++ ctx2.dense_artifacts))
        0 0 ctx2.st hbatches hst
      rcases hE : embedGo cfg ids.eIds embf (chunk100
        (ctx2.transcript_artifacts ++ ctx2.caption_artifacts ++ ctx2.dense_artifacts))
        0 0 ctx2.st with ⟨st2, w⟩
      rw [hE] at hgo
      cases w
      · exact ⟨hgo, hT, hC, hK, hD⟩
      · exact ⟨hgo, hT, hC, hK, hD⟩
    · exact ⟨hst, hT, hC, hK, hD⟩
  · exact ⟨hst, hT, hC, hK, hD⟩

end AV

namespace AV

lemma mem_delete_videos {st : RepoState} {vid : String} {w : VideoRow}
    (h : w ∈ (delete_video st vid).videos) : w ∈ st.videos ∧ ¬ w.id = vid := by
  unfold delete_video at h
  dsimp only at h
  rw [List.mem_filter] at h
  exact ⟨h.1, by simpa using h.2⟩

lemma update_id_eq (u : VideoRow) (vid s : String) (err : Option String) :
    ((if u.id = vid then { u with status := s, error_message := err } else u) :
      VideoRow).id = u.id := by
  split <;> rfl

/-- Claim C3 — `force` re-ingest of a fingerprint-matching file: the run
returns the fresh video id; in the resulting store the prior video row is
gone, no artifact of the prior video remains, no embedding of any of the
prior video's artifacts remains, and a new row carrying the fingerprint
under the fresh id is present.  (The freshness hypotheses state that the
`uuid4` draws of this run collide with nothing pre-existing, and the
`hcas` hypothesis records what `run_cascade` guarantees about the rows it
returns.) -/
theorem ingest_force_reingest (cfg : AVConfig) (opts : IngestOptions) (ids : IdSource)
    (fhash filename fp : String) (pp : Option String) (so : StageOutcomes)
    (st : RepoState) (v : VideoRow) (meta : VideoMeta)
    (hv : get_video_by_hash st fhash = some v)
    (hforce : opts.force = true)
    (hdry : opts.dry_run = false)
    (hprobe : so.probe = .ok meta)
    (hfresh_vid : ∀ w ∈ st.videos, w.id ≠ ids.video_id)
    (hhash : ∀ w ∈ st.videos, w.file_hash = fhash → w = v)
    (ht : ∀ n, ¬ ids.tIds n ∈ ((st.artifacts.filter (fun a => a.video_id = v.id)).map (·.id)))
    (hfi : ∀ n, ¬ ids.fIds n ∈ ((st.artifacts.filter (fun a => a.video_id = v.id)).map (·.id)))
    (hdi : ∀ n, ¬ ids.dIds n ∈ ((st.artifacts.filter (fun a => a.video_id = v.id)).map (·.id)))
    (hcas : ∀ x, so.cascade = .ok x → ∀ a ∈ x.1 ++ x.2.1 ++ x.2.2,
      a.video_id = ids.video_id ∧
      ¬ a.id ∈ ((st.artifacts.filter (fun a => a.video_id = v.id)).map (·.id))) :
    ∃ st' r, ingest_video cfg opts ids fhash filename fp pp so st = (st', .ok r) ∧
      r.video_id = ids.video_id ∧
      ids.video_id ≠ v.id ∧
      (∀ w ∈ st'.videos, w.id ≠ v.id) ∧
      (∃ w ∈ st'.videos, w.id = ids.video_id ∧ w.file_hash = fhash) ∧
      (∀ a ∈ st'.artifacts, a.video_id ≠ v.id) ∧
      (∀ e ∈ st'.embeddings,
        ¬ e.artifact_id ∈ ((st.artifacts.filter (fun a => a.video_id = v.id)).map (·.id))) := by
  have hvmem : v ∈ st.videos := List.mem_of_find?_eq_some hv
  have hvid_ne : ids.video_id ≠ v.id := (hfresh_vid v hvmem).symm
  unfold ingest_video
  rw [hv]
  dsimp only
  rw [hforce, if_neg (show ¬ ¬ (true = true) by simp)]
  unfold ingest_main
  rw [hprobe]
  dsimp only
  rw [hdry, if_neg (show ¬ (false = true) by simp)]
  set vrow : VideoRow :=
      { id := ids.video_id, file_path := fp, file_hash := fhash,
        file_size_bytes := meta.file_size_bytes, filename := filename,
        duration_sec := meta.duration_sec, width := meta.width,
        height := meta.height, fps := meta.fps, codec := meta.codec,
        bitrate := meta.bitrate, status := "pending",
        ingest_config_json := some (ingestConfigJson opts pp) } with hvrow
  cases hins : insert_video (delete_video st v.id) vrow with
  | error e =>
      exfalso
      unfold insert_video at hins
      split at hins
      · rename_i hcond
        simp only [List.any_eq_true, decide_eq_true_eq] at hcond
        rcases hcond with ⟨w, hw, hwp⟩
        obtain ⟨hwst, hwne⟩ := mem_delete_videos hw
        rcases hwp with h1 | h1
        · exact hfresh_vid w hwst h1
        · exact hwne (congrArg VideoRow.id (hhash w hwst h1))
      · cases hins
  | ok st1 =>
      unfold insert_video at hins
      split at hins
      · cases hins
      · injection hins with hh
        have hsv := congrArg RepoState.videos hh
        have hsa := congrArg RepoState.artifacts hh
        have hse := congrArg RepoState.embeddings hh
        have hctx0 : CtxOk v.id
            ((st.artifacts.filter (fun a => a.video_id = v.id)).map (·.id))
            ⟨st1, [], 0, [], [], [], []⟩ := by
          refine ⟨⟨?_, ?_⟩, ?_, ?_, ?_, ?_⟩
          · intro a ha
            rw [show st1.artifacts = (delete_video st v.id).artifacts from hsa.symm] at ha
            unfold delete_video at ha
            dsimp only at ha
            rw [List.mem_filter] at ha
            simpa using ha.2
          · intro e he
            rw [show st1.embeddings = (delete_video st v.id).embeddings from hse.symm] at he
            unfold delete_video at he
            dsimp only at he
            rw [List.mem_filter] at he
            simpa using he.2
          all_goals exact fun a ha => absurd ha (List.not_mem_nil a)
        have hchain := stage_embed_CtxOk cfg opts ids so.embed
          (stage_dense_CtxOk cfg opts ids pp so.dense_caps hvid_ne hdi
            (stage_frame_captions_CtxOk cfg opts ids so.frame_caps hvid_ne hfi
              (stage_cascade_CtxOk opts so.cascade
                (fun x hx a ha => ⟨(hcas x hx a ha).1 ▸ hvid_ne, (hcas x hx a ha).2⟩)
                (stage_transcribe_CtxOk cfg ids so.transcribe hvid_ne ht hctx0))))
        have hvids := stages_videos cfg opts ids pp so ⟨st1, [], 0, [], [], [], []⟩
        refine ⟨_, _, rfl, rfl, hvid_ne, ?_, ?_, ?_, ?_⟩
        · intro w hw
          unfold update_video_status at hw
          dsimp only at hw
          rcases List.mem_map.1 hw with ⟨u, hu, hue⟩
          rw [hvids, ← hsv] at hu
          rw [← hue, update_id_eq]
          rcases List.mem_append.1 hu with h1 | h1
          · exact (mem_delete_videos h1).2
          · rw [List.mem_singleton.1 h1]
            exact hvid_ne
        · have hrec_mem : vrow ∈ (stage_embed cfg opts ids so.embed
              (stage_dense cfg opts ids pp so.dense_caps
                (stage_frame_captions cfg opts ids so.frame_caps
                  (stage_cascade opts so.cascade
                    (stage_transcribe cfg ids so.transcribe
                      ⟨st1, [], 0, [], [], [], []⟩))))).st.videos := by
            rw [hvids, ← hsv]
            exact List.mem_append_right _ (List.mem_singleton_self vrow)
          refine ⟨_, List.mem_map_of_mem
            (fun u => if u.id = ids.video_id then
              { u with status := "complete", error_message := none } else u) hrec_mem, ?_⟩
          rw [if_pos rfl]
          exact ⟨rfl, rfl⟩
        · exact hchain.1.1
        · exact hchain.1.2

end AV

namespace AV

/-- Claim C1 (as amended) — For every ingest call that reaches finalization
(it returned a result dict whose status is neither `skipped` nor
`dry_run`), the Video's *persisted* status is set to `"complete"`
unconditionally; only the *returned* status distinguishes: it is
`"complete"` exactly when the run recorded no warnings, and
`"complete_with_warnings"` otherwise. -/
theorem ingest_finalize_persisted_status (cfg : AVConfig) (opts : IngestOptions)
    (ids : IdSource) (fhash filename fp : String) (pp : Option String)
    (so : StageOutcomes) (st st' : RepoState) (r : IngestResult)
    (h : ingest_video cfg opts ids fhash filename fp pp so st = (st', .ok r))
    (hs : r.status ≠ "skipped") (hd : r.status ≠ "dry_run") :
    videoStatus st' r.video_id = some "complete" ∧
    (r.status = "complete" ↔ r.warnings = []) ∧
    (r.status = "complete" ∨ r.status = "complete_with_warnings") := by
  unfold ingest_video at h
  split at h
  · split at h
    · injection h with h1 h2
      injection h2 with h2
      subst h2
      exact absurd rfl hs
    · exact ingest_main_finalize cfg opts ids fhash filename fp pp so _ st' r h hd
  · exact ingest_main_finalize cfg opts ids fhash filename fp pp so st st' r h hd

/-- One full ingest run over the empty store, evaluated. -/
lemma ingest_c1_eval :
    ingest_video cfgNoTranscribe optsNoEmbed idsRun1 "h1" "a.mp4" "/x/a.mp4" none
      soProbe10 RepoState.empty = (stAfterC1, .ok rAfterC1) := rfl

/-- Claim C1, counterexample — A run whose only event is the "transcription
disabled" warning: the returned status is `complete_with_warnings`, yet the
persisted status of the video row is `"complete"`, not
`"complete_with_warnings"` as the claim states. -/
theorem ingest_warning_persisted_status_counterexample :
    ingest_video cfgNoTranscribe optsNoEmbed idsRun1 "h1" "a.mp4" "/x/a.mp4" none
      soProbe10 RepoState.empty = (stAfterC1, .ok rAfterC1) ∧
    rAfterC1.warnings ≠ [] ∧
    rAfterC1.status = "complete_with_warnings" ∧
    videoStatus stAfterC1 rAfterC1.video_id = some "complete" ∧
    videoStatus stAfterC1 rAfterC1.video_id ≠ some "complete_with_warnings" :=
  ⟨ingest_c1_eval, by decide, by decide, rfl, by decide⟩

/-- Witness for `ingest_finalize_persisted_status` at the concrete run. -/
theorem ingest_finalize_persisted_status_witness :
    rAfterC1.status ≠ "skipped" ∧ rAfterC1.status ≠ "dry_run" ∧
    (videoStatus stAfterC1 rAfterC1.video_id = some "complete" ∧
     (rAfterC1.status = "complete" ↔ rAfterC1.warnings = []) ∧
     (rAfterC1.status = "complete" ∨ rAfterC1.status = "complete_with_warnings")) :=
  ⟨by decide, by decide,
    ingest_finalize_persisted_status cfgNoTranscribe optsNoEmbed idsRun1 "h1" "a.mp4"
      "/x/a.mp4" none soProbe10 RepoState.empty stAfterC1 rAfterC1 ingest_c1_eval
      (by decide) (by decide)⟩

/-- Witness for `ingest_force_reingest` on the one-video store. -/
theorem ingest_force_reingest_witness :
    get_video_by_hash stBeforeC3 "h1" = some vOld ∧
    optsForce.force = true ∧
    (∃ st' r, ingest_video cfgNoTranscribe optsForce idsRun1 "h1" "a.mp4" "/x/a.mp4"
        none soProbe10 stBeforeC3 = (st', .ok r) ∧
      r.video_id = idsRun1.video_id ∧
      idsRun1.video_id ≠ vOld.id ∧
      (∀ w ∈ st'.videos, w.id ≠ vOld.id) ∧
      (∃ w ∈ st'.videos, w.id = idsRun1.video_id ∧ w.file_hash = "h1") ∧
      (∀ a ∈ st'.artifacts, a.video_id ≠ vOld.id) ∧
      (∀ e ∈ st'.embeddings, ¬ e.artifact_id ∈
        ((stBeforeC3.artifacts.filter (fun a => a.video_id = vOld.id)).map (·.id)))) := by
  refine ⟨rfl, rfl,
    ingest_force_reingest cfgNoTranscribe optsForce idsRun1 "h1" "a.mp4" "/x/a.mp4"
      none soProbe10 stBeforeC3 vOld { duration_sec := 10, file_size_bytes := 256 }
      rfl rfl rfl rfl ?_ ?_ ?_ ?_ ?_ ?_⟩
  · decide
  · intro w hw _
    exact List.mem_singleton.1 hw
  · intro n
    have hn : ¬ "t" ∈ ((stBeforeC3.artifacts.filter
        (fun a => a.video_id = vOld.id)).map (·.id)) := by decide
    exact hn
  · intro n
    have hn : ¬ "f" ∈ ((stBeforeC3.artifacts.filter
        (fun a => a.video_id = vOld.id)).map (·.id)) := by decide
    exact hn
  · intro n
    have hn : ¬ "d" ∈ ((stBeforeC3.artifacts.filter
        (fun a => a.video_id = vOld.id)).map (·.id)) := by decide
    exact hn
  · intro x hx
    exact Except.noConfusion hx

end AV

namespace AV

/-- Witness for `rerank_spec` on a two-candidate set with one stored
embedding. -/
theorem rerank_spec_witness :
    ([("a1", [(2 : ℚ)])] : List (String × List ℚ)) ≠ [] ∧
    RerankOk simDot 1 [("a1", [2])] [3] [] [srA, srB] ∧
    (∀ kv ∈ ([("a1", [(2 : ℚ)])] : List (String × List ℚ)),
      some kv.1 ≠ srB.artifact_id) ∧
    rerankScore simDot [("a1", [2])] [3] srB = 0 ∧
    rerank simDot 1 [("a1", [2])] (.error "boom") [srA, srB] = [srA, srB].take 1 := by
  have hne : ([("a1", [(2 : ℚ)])] : List (String × List ℚ)) ≠ [] := by simp
  have hkv : ∀ kv ∈ ([("a1", [(2 : ℚ)])] : List (String × List ℚ)),
      some kv.1 ≠ srB.artifact_id := by
    intro kv hkv
    rw [List.mem_singleton.1 hkv]
    decide
  exact ⟨hne, (rerank_spec simDot 1 [("a1", [2])] [srA, srB] hne).1 [3] [], hkv,
    (rerank_spec simDot 1 [("a1", [2])] [srA, srB] hne).2.1 [3] srB
      (List.mem_cons_of_mem srA (List.mem_singleton_self srB)) hkv,
    (rerank_spec simDot 1 [("a1", [2])] [srA, srB] hne).2.2.2 "boom"⟩

end AV
